import Mathlib

/-!
Shallow embedding of the Blender addon "Animation Transform Offset"
(src/__init__.py).  The addon defines three modal operators
(ANIMOFFSET_OT_grab, ANIMOFFSET_OT_rotate, ANIMOFFSET_OT_scale), each with
an invoke step (snapshot the transforms of the selected animated objects
into a class-level dict, warn and cancel when no selected object is
animated) and a modal step (on left-mouse release apply the observed delta
to every keyframe of the matching channel; on right mouse or escape restore
the snapshot).

Scalars: the grab and scale operators are embedded over the rationals so
that everything evaluates; the rotate operator is embedded over the reals
because its keyframe update goes through the transcendental
degrees/radians conversion of Python's math module.  Python raises
ZeroDivisionError on float division by zero and IndexError on
out-of-range mathutils.Vector indexing, so the per-object offset step is
Option-valued: a None result models an uncaught fault.
-/

namespace AnimOffset

/-- A 3-component vector, modelling mathutils.Vector of length 3
(object location, rotation_euler, scale, and per-axis deltas). -/
structure Vec3 (α : Type) where
  x : α
  y : α
  z : α
deriving DecidableEq, Repr

/-- Indexing a mathutils.Vector: v[0], v[1], v[2]; any other index raises
IndexError, modelled as none. -/
def Vec3.get {α : Type} (v : Vec3 α) : Nat → Option α
  | 0 => some v.x
  | 1 => some v.y
  | 2 => some v.z
  | _ => none

/-- Componentwise vector subtraction, modelling mathutils.Vector
subtraction in `obj.location - self.start_locs[obj]`. -/
def Vec3.sub {α : Type} [Sub α] (a b : Vec3 α) : Vec3 α :=
  ⟨a.x - b.x, a.y - b.y, a.z - b.z⟩

/-- The 2-component co vector of a keyframe point: co.x is the frame
(time), co.y is the value. -/
structure Vec2 (α : Type) where
  x : α
  y : α
deriving DecidableEq, Repr

/-- A keyframe point of an fcurve (kp in the source). -/
structure KeyframePoint (α : Type) where
  co : Vec2 α
deriving DecidableEq, Repr

/-- An animation fcurve: a data path such as "location", an axis index,
and the keyframe points.  The source also calls fc.update() after bulk
edits; that recompute call has no observable effect on this data. -/
structure FCurve (α : Type) where
  data_path : String
  array_index : Nat
  keyframe_points : List (KeyframePoint α)
deriving DecidableEq, Repr

/-- An action: the set of fcurves driving one object. -/
structure Action (α : Type) where
  fcurves : List (FCurve α)
deriving DecidableEq, Repr

/-- Animation data of an object; the action slot may be empty. -/
structure AnimationData (α : Type) where
  action : Option (Action α)
deriving DecidableEq, Repr

/-- A scene object: an identity (Python dict key / object identity), the
three live transform components, and optional animation data. -/
structure Obj (α : Type) where
  id : Nat
  location : Vec3 α
  rotation_euler : Vec3 α
  scale : Vec3 α
  animation_data : Option (AnimationData α)
deriving DecidableEq, Repr

/-- The snapshot storage start_locs / start_rots / start_scales: a dict
from object identity to a copied transform component, modelled as an
association list keyed by object id. -/
def SnapMap (α : Type) : Type :=
  List (Nat × Vec3 α)

/-- Dict lookup self.start_locs[obj] (and the membership test
obj in self.start_locs when the result is matched against none). -/
def lookupSnap {α : Type} : SnapMap α → Nat → Option (Vec3 α)
  | [], _ => none
  | (k, v) :: rest, i => if k = i then some v else lookupSnap rest i

/-- Truthiness test obj.animation_data and obj.animation_data.action. -/
def isAnimatedObj {α : Type} (obj : Obj α) : Bool :=
  match obj.animation_data with
  | none => false
  | some ad =>
    match ad.action with
    | none => false
    | some _ => true

/-- The snapshot loop shared by the three invoke methods: for each
selected object with animation data and an action, store a copy of the
given transform component under the object's identity. -/
def snapList {α : Type} (f : Obj α → Vec3 α) : List (Obj α) → SnapMap α
  | [] => []
  | obj :: rest =>
    if isAnimatedObj obj then (obj.id, f obj) :: snapList f rest
    else snapList f rest

/-- The animated_objects flag computed by the invoke loop: true when at
least one selected object has animation data and an action. -/
def anyAnimated {α : Type} : List (Obj α) → Bool
  | [] => false
  | obj :: rest => isAnimatedObj obj || anyAnimated rest

/-- Event types relevant to the three modal methods. -/
inductive EvType where
  | MOUSEMOVE
  | LEFTMOUSE
  | RIGHTMOUSE
  | ESC
  | OTHER
deriving DecidableEq, Repr

/-- Event values relevant to the three modal methods. -/
inductive EvValue where
  | PRESS
  | RELEASE
  | NOTHING
deriving DecidableEq, Repr

/-- An input event dispatched by the host to the modal method. -/
structure Event where
  type : EvType
  value : EvValue
deriving DecidableEq, Repr

/-- Return values of the operator methods. -/
inductive OpResult where
  | PASS_THROUGH
  | FINISHED
  | CANCELLED
  | RUNNING_MODAL
deriving DecidableEq, Repr

/-! ### ANIMOFFSET_OT_grab -/

/-- The inner keyframe loop of grab's confirm branch:
kp.co.y += delta[fc.array_index] for each keyframe point; an out-of-range
array_index raises IndexError (none). -/
def grabOffsetKps (delta : Vec3 ℚ) (i : Nat) :
    List (KeyframePoint ℚ) → Option (List (KeyframePoint ℚ))
  | [] => some []
  | kp :: rest =>
    match delta.get i, grabOffsetKps delta i rest with
    | some d, some rest' =>
      some ({ kp with co := { kp.co with y := kp.co.y + d } } :: rest')
    | _, _ => none

/-- The fcurve loop of grab's confirm branch: fcurves whose data_path is
"location" get every keyframe value shifted; other fcurves are left
alone. -/
def grabOffsetFCurves (delta : Vec3 ℚ) :
    List (FCurve ℚ) → Option (List (FCurve ℚ))
  | [] => some []
  | fc :: rest =>
    if fc.data_path = "location" then
      match grabOffsetKps delta fc.array_index fc.keyframe_points,
          grabOffsetFCurves delta rest with
      | some kps', some rest' =>
        some ({ fc with keyframe_points := kps' } :: rest')
      | _, _ => none
    else
      match grabOffsetFCurves delta rest with
      | some rest' => some (fc :: rest')
      | none => none

/-- The per-object body of grab's confirm branch: when the object has
animation data, an action and a snapshot, compute
delta = obj.location - start_locs[obj] and offset every location
keyframe; otherwise the object is untouched. -/
def grabConfirmObj (start_locs : SnapMap ℚ) (obj : Obj ℚ) : Option (Obj ℚ) :=
  match obj.animation_data with
  | none => some obj
  | some ad =>
    match ad.action with
    | none => some obj
    | some act =>
      match lookupSnap start_locs obj.id with
      | none => some obj
      | some s =>
        let delta := obj.location.sub s
        match grabOffsetFCurves delta act.fcurves with
        | none => none
        | some fcs' =>
          some { obj with animation_data := some ({ ad with action := some ({ act with fcurves := fcs' }) }) }

/-- The loop over context.selected_objects in grab's confirm branch. -/
def grabConfirmList (start_locs : SnapMap ℚ) :
    List (Obj ℚ) → Option (List (Obj ℚ))
  | [] => some []
  | obj :: rest =>
    match grabConfirmObj start_locs obj, grabConfirmList start_locs rest with
    | some obj', some rest' => some (obj' :: rest')
    | _, _ => none

/-- The per-object body of grab's cancel branch: objects with a snapshot
get their location restored; nothing else changes. -/
def grabCancelObj (start_locs : SnapMap ℚ) (obj : Obj ℚ) : Obj ℚ :=
  match lookupSnap start_locs obj.id with
  | none => obj
  | some s => { obj with location := s }

/-- ANIMOFFSET_OT_grab.modal: mouse move passes through; left-mouse
release applies the translation delta to all location keyframes of the
selected objects and finishes; right mouse or escape restores the
snapshot positions and cancels; anything else keeps running.  The
snapshot storage is returned unchanged: modal never writes
self.start_locs. -/
def grabModal (start_locs : SnapMap ℚ) (selected_objects : List (Obj ℚ))
    (event : Event) :
    Option (SnapMap ℚ × List (Obj ℚ) × OpResult) :=
  if event.type = EvType.MOUSEMOVE then
    some (start_locs, selected_objects, OpResult.PASS_THROUGH)
  else if event.type = EvType.LEFTMOUSE ∧ event.value = EvValue.RELEASE then
    match grabConfirmList start_locs selected_objects with
    | some objs' => some (start_locs, objs', OpResult.FINISHED)
    | none => none
  else if event.type = EvType.RIGHTMOUSE ∨ event.type = EvType.ESC then
    some (start_locs, selected_objects.map (grabCancelObj start_locs),
      OpResult.CANCELLED)
  else
    some (start_locs, selected_objects, OpResult.RUNNING_MODAL)

/-- ANIMOFFSET_OT_grab.invoke: self.start_locs.clear() discards the
previous contents of the class-level dict, the loop refills it from the
current selection, and when no selected object is animated the operator
reports a warning (the returned flag) and cancels.  The invoke method
reads but never writes the objects. -/
def grabInvoke (_prev_start_locs : SnapMap ℚ)
    (selected_objects : List (Obj ℚ)) : SnapMap ℚ × OpResult × Bool :=
  let start_locs := snapList (fun obj => obj.location) selected_objects
  if anyAnimated selected_objects then
    (start_locs, OpResult.RUNNING_MODAL, false)
  else
    (start_locs, OpResult.CANCELLED, true)

/-! ### ANIMOFFSET_OT_rotate -/

/-- Python's math.degrees: convert radians to degrees. -/
noncomputable def degrees (x : ℝ) : ℝ :=
  x * 180 / Real.pi

/-- Python's math.radians: convert degrees to radians. -/
noncomputable def radians (x : ℝ) : ℝ :=
  x * Real.pi / 180

/-- The inner keyframe loop of rotate's confirm branch:
kp.co.y += radians(delta[fc.array_index]), where delta is the
degrees-valued difference vector. -/
noncomputable def rotOffsetKps (delta : Vec3 ℝ) (i : Nat) :
    List (KeyframePoint ℝ) → Option (List (KeyframePoint ℝ))
  | [] => some []
  | kp :: rest =>
    match delta.get i, rotOffsetKps delta i rest with
    | some d, some rest' =>
      some ({ kp with co := { kp.co with y := kp.co.y + radians d } } :: rest')
    | _, _ => none

/-- The fcurve loop of rotate's confirm branch, acting on fcurves whose
data_path is "rotation_euler". -/
noncomputable def rotOffsetFCurves (delta : Vec3 ℝ) :
    List (FCurve ℝ) → Option (List (FCurve ℝ))
  | [] => some []
  | fc :: rest =>
    if fc.data_path = "rotation_euler" then
      match rotOffsetKps delta fc.array_index fc.keyframe_points,
          rotOffsetFCurves delta rest with
      | some kps', some rest' =>
        some ({ fc with keyframe_points := kps' } :: rest')
      | _, _ => none
    else
      match rotOffsetFCurves delta rest with
      | some rest' => some (fc :: rest')
      | none => none

/-- The per-object body of rotate's confirm branch: the rotation
difference is converted to degrees per axis (the delta Vector), and each
rotation_euler keyframe value is shifted by radians(delta[axis]). -/
noncomputable def rotateConfirmObj (start_rots : SnapMap ℝ) (obj : Obj ℝ) :
    Option (Obj ℝ) :=
  match obj.animation_data with
  | none => some obj
  | some ad =>
    match ad.action with
    | none => some obj
    | some act =>
      match lookupSnap start_rots obj.id with
      | none => some obj
      | some s =>
        let delta : Vec3 ℝ :=
          ⟨degrees (obj.rotation_euler.x - s.x),
            degrees (obj.rotation_euler.y - s.y),
            degrees (obj.rotation_euler.z - s.z)⟩
        match rotOffsetFCurves delta act.fcurves with
        | none => none
        | some fcs' =>
          some { obj with animation_data := some ({ ad with action := some ({ act with fcurves := fcs' }) }) }

/-- The loop over context.selected_objects in rotate's confirm branch. -/
noncomputable def rotateConfirmList (start_rots : SnapMap ℝ) :
    List (Obj ℝ) → Option (List (Obj ℝ))
  | [] => some []
  | obj :: rest =>
    match rotateConfirmObj start_rots obj, rotateConfirmList start_rots rest with
    | some obj', some rest' => some (obj' :: rest')
    | _, _ => none

/-- The per-object body of rotate's cancel branch: restore the snapshot
rotation. -/
def rotateCancelObj (start_rots : SnapMap ℝ) (obj : Obj ℝ) : Obj ℝ :=
  match lookupSnap start_rots obj.id with
  | none => obj
  | some s => { obj with rotation_euler := s }

/-- ANIMOFFSET_OT_rotate.modal, with the same event dispatch as grab. -/
noncomputable def rotateModal (start_rots : SnapMap ℝ)
    (selected_objects : List (Obj ℝ)) (event : Event) :
    Option (SnapMap ℝ × List (Obj ℝ) × OpResult) :=
  if event.type = EvType.MOUSEMOVE then
    some (start_rots, selected_objects, OpResult.PASS_THROUGH)
  else if event.type = EvType.LEFTMOUSE ∧ event.value = EvValue.RELEASE then
    match rotateConfirmList start_rots selected_objects with
    | some objs' => some (start_rots, objs', OpResult.FINISHED)
    | none => none
  else if event.type = EvType.RIGHTMOUSE ∨ event.type = EvType.ESC then
    some (start_rots, selected_objects.map (rotateCancelObj start_rots),
      OpResult.CANCELLED)
  else
    some (start_rots, selected_objects, OpResult.RUNNING_MODAL)

/-- ANIMOFFSET_OT_rotate.invoke: clear the class-level dict, snapshot the
rotations of the animated selected objects, warn and cancel when there is
none. -/
def rotateInvoke (_prev_start_rots : SnapMap ℝ)
    (selected_objects : List (Obj ℝ)) : SnapMap ℝ × OpResult × Bool :=
  let start_rots := snapList (fun obj => obj.rotation_euler) selected_objects
  if anyAnimated selected_objects then
    (start_rots, OpResult.RUNNING_MODAL, false)
  else
    (start_rots, OpResult.CANCELLED, true)

/-! ### ANIMOFFSET_OT_scale -/

/-- Python float division: a / b, raising ZeroDivisionError (none) when
the divisor is zero. -/
def fdiv (a b : ℚ) : Option ℚ :=
  if b = 0 then none else some (a / b)

/-- The inner keyframe loop of scale's confirm branch:
kp.co.y *= (1 + delta[fc.array_index]). -/
def scaleOffsetKps (delta : Vec3 ℚ) (i : Nat) :
    List (KeyframePoint ℚ) → Option (List (KeyframePoint ℚ))
  | [] => some []
  | kp :: rest =>
    match delta.get i, scaleOffsetKps delta i rest with
    | some d, some rest' =>
      some ({ kp with co := { kp.co with y := kp.co.y * (1 + d) } } :: rest')
    | _, _ => none

/-- The fcurve loop of scale's confirm branch, acting on fcurves whose
data_path is "scale". -/
def scaleOffsetFCurves (delta : Vec3 ℚ) :
    List (FCurve ℚ) → Option (List (FCurve ℚ))
  | [] => some []
  | fc :: rest =>
    if fc.data_path = "scale" then
      match scaleOffsetKps delta fc.array_index fc.keyframe_points,
          scaleOffsetFCurves delta rest with
      | some kps', some rest' =>
        some ({ fc with keyframe_points := kps' } :: rest')
      | _, _ => none
    else
      match scaleOffsetFCurves delta rest with
      | some rest' => some (fc :: rest')
      | none => none

/-- The per-object body of scale's confirm branch: the scale factors
delta[i] = obj.scale[i] / start_scales[obj][i] - 1 are computed eagerly
(before the fcurve loop, so a zero snapshot component faults even when
there is no scale fcurve), then every scale keyframe value is multiplied
by (1 + delta[axis]). -/
def scaleConfirmObj (start_scales : SnapMap ℚ) (obj : Obj ℚ) :
    Option (Obj ℚ) :=
  match obj.animation_data with
  | none => some obj
  | some ad =>
    match ad.action with
    | none => some obj
    | some act =>
      match lookupSnap start_scales obj.id with
      | none => some obj
      | some s =>
        match fdiv obj.scale.x s.x, fdiv obj.scale.y s.y,
            fdiv obj.scale.z s.z with
        | some q0, some q1, some q2 =>
          let delta : Vec3 ℚ := ⟨q0 - 1, q1 - 1, q2 - 1⟩
          match scaleOffsetFCurves delta act.fcurves with
          | none => none
          | some fcs' =>
            some { obj with animation_data := some ({ ad with action := some ({ act with fcurves := fcs' }) }) }
        | _, _, _ => none

/-- The loop over context.selected_objects in scale's confirm branch. -/
def scaleConfirmList (start_scales : SnapMap ℚ) :
    List (Obj ℚ) → Option (List (Obj ℚ))
  | [] => some []
  | obj :: rest =>
    match scaleConfirmObj start_scales obj,
        scaleConfirmList start_scales rest with
    | some obj', some rest' => some (obj' :: rest')
    | _, _ => none

/-- The per-object body of scale's cancel branch: restore the snapshot
scale. -/
def scaleCancelObj (start_scales : SnapMap ℚ) (obj : Obj ℚ) : Obj ℚ :=
  match lookupSnap start_scales obj.id with
  | none => obj
  | some s => { obj with scale := s }

/-- ANIMOFFSET_OT_scale.modal, with the same event dispatch as grab. -/
def scaleModal (start_scales : SnapMap ℚ)
    (selected_objects : List (Obj ℚ)) (event : Event) :
    Option (SnapMap ℚ × List (Obj ℚ) × OpResult) :=
  if event.type = EvType.MOUSEMOVE then
    some (start_scales, selected_objects, OpResult.PASS_THROUGH)
  else if event.type = EvType.LEFTMOUSE ∧ event.value = EvValue.RELEASE then
    match scaleConfirmList start_scales selected_objects with
    | some objs' => some (start_scales, objs', OpResult.FINISHED)
    | none => none
  else if event.type = EvType.RIGHTMOUSE ∨ event.type = EvType.ESC then
    some (start_scales, selected_objects.map (scaleCancelObj start_scales),
      OpResult.CANCELLED)
  else
    some (start_scales, selected_objects, OpResult.RUNNING_MODAL)

/-- ANIMOFFSET_OT_scale.invoke: clear the class-level dict, snapshot the
scales of the animated selected objects, warn and cancel when there is
none. -/
def scaleInvoke (_prev_start_scales : SnapMap ℚ)
    (selected_objects : List (Obj ℚ)) : SnapMap ℚ × OpResult × Bool :=
  let start_scales := snapList (fun obj => obj.scale) selected_objects
  if anyAnimated selected_objects then
    (start_scales, OpResult.RUNNING_MODAL, false)
  else
    (start_scales, OpResult.CANCELLED, true)

/-- Modelled from the spec: the rotate confirm step with the numerically
redundant degrees round-trip removed, adding the direct radian difference
obj.rotation_euler[axis] - start_rots[obj][axis] to each rotation_euler
keyframe value.  Used only to state the refinement claim that the
implemented rotate confirm step is equivalent to direct subtraction. -/
noncomputable def rotOffsetKpsDirect (delta : Vec3 ℝ) (i : Nat) :
    List (KeyframePoint ℝ) → Option (List (KeyframePoint ℝ))
  | [] => some []
  | kp :: rest =>
    match delta.get i, rotOffsetKpsDirect delta i rest with
    | some d, some rest' =>
      some ({ kp with co := { kp.co with y := kp.co.y + d } } :: rest')
    | _, _ => none

/-- Modelled from the spec: the fcurve loop of the direct-subtraction
rotate confirm step. -/
noncomputable def rotOffsetFCurvesDirect (delta : Vec3 ℝ) :
    List (FCurve ℝ) → Option (List (FCurve ℝ))
  | [] => some []
  | fc :: rest =>
    if fc.data_path = "rotation_euler" then
      match rotOffsetKpsDirect delta fc.array_index fc.keyframe_points,
          rotOffsetFCurvesDirect delta rest with
      | some kps', some rest' =>
        some ({ fc with keyframe_points := kps' } :: rest')
      | _, _ => none
    else
      match rotOffsetFCurvesDirect delta rest with
      | some rest' => some (fc :: rest')
      | none => none

/-- Modelled from the spec: the per-object direct-subtraction rotate
confirm step, whose delta vector is the plain radian difference with no
degrees round-trip. -/
noncomputable def rotateConfirmObjDirect (start_rots : SnapMap ℝ)
    (obj : Obj ℝ) : Option (Obj ℝ) :=
  match obj.animation_data with
  | none => some obj
  | some ad =>
    match ad.action with
    | none => some obj
    | some act =>
      match lookupSnap start_rots obj.id with
      | none => some obj
      | some s =>
        let delta : Vec3 ℝ :=
          ⟨obj.rotation_euler.x - s.x, obj.rotation_euler.y - s.y,
            obj.rotation_euler.z - s.z⟩
        match rotOffsetFCurvesDirect delta act.fcurves with
        | none => none
        | some fcs' =>
          some { obj with animation_data := some ({ ad with action := some ({ act with fcurves := fcs' }) }) }

/-! ### Helper lemmas -/

theorem Vec3.get_of_lt {α : Type} (v : Vec3 α) (i : Nat) (h : i < 3) :
    ∃ d, v.get i = some d :=
  match i, h with
  | 0, _ => ⟨v.x, rfl⟩
  | 1, _ => ⟨v.y, rfl⟩
  | 2, _ => ⟨v.z, rfl⟩

theorem grabOffsetKps_map (delta : Vec3 ℚ) (i : Nat) (d : ℚ)
    (h : delta.get i = some d) (kps : List (KeyframePoint ℚ)) :
    grabOffsetKps delta i kps =
      some (kps.map
        (fun kp => { kp with co := { kp.co with y := kp.co.y + d } })) := by
  induction kps with
  | nil => rfl
  | cons kp rest ih => simp [grabOffsetKps, h, ih]

theorem grabOffsetFCurves_forall (delta : Vec3 ℚ) (fcs : List (FCurve ℚ))
    (hidx : ∀ fc ∈ fcs, fc.data_path = "location" →
      ∃ d, delta.get fc.array_index = some d) :
    ∃ fcs', grabOffsetFCurves delta fcs = some fcs' ∧
      List.Forall₂ (fun fc fc' =>
        (fc.data_path = "location" →
          ∀ d, delta.get fc.array_index = some d →
            fc' = { fc with keyframe_points := fc.keyframe_points.map (fun kp => { kp with co := { kp.co with y := kp.co.y + d } }) }) ∧
        (¬ fc.data_path = "location" → fc' = fc)) fcs fcs' := by
  induction fcs with
  | nil => exact ⟨[], rfl, List.Forall₂.nil⟩
  | cons fc rest ih =>
    obtain ⟨rest', hrest, hrel⟩ :=
      ih (fun f hf => hidx f (List.mem_cons_of_mem _ hf))
    by_cases hdp : fc.data_path = "location"
    · obtain ⟨d, hd⟩ := hidx fc (List.mem_cons_self _ _) hdp
      refine ⟨{ fc with keyframe_points := fc.keyframe_points.map (fun kp => { kp with co := { kp.co with y := kp.co.y + d } }) } :: rest',
        ?_, List.Forall₂.cons ⟨?_, ?_⟩ hrel⟩
      · simp [grabOffsetFCurves, hdp, grabOffsetKps_map delta _ d hd, hrest]
      · intro _ d' hd'
        rw [hd] at hd'
        cases hd'
        rfl
      · intro hcon
        exact absurd hdp hcon
    · refine ⟨fc :: rest',
        ?_, List.Forall₂.cons ⟨fun hcon => absurd hcon hdp, fun _ => rfl⟩ hrel⟩
      simp [grabOffsetFCurves, hdp, hrest]

/-! ### Claims -/

/-- C1: for every selected object with animation data, an action and a
snapshot, confirming the grab gesture (left-mouse release) with final
position F = obj.location and snapshot position S adds
(F - S)[array_index] to the value of every keyframe point of every fcurve
whose data_path is "location"; the object's live transform and every
other fcurve are untouched. -/
theorem grab_confirm_adds_delta_to_location_keyframes
    (start_locs : SnapMap ℚ) (obj : Obj ℚ) (ad : AnimationData ℚ)
    (act : Action ℚ) (s : Vec3 ℚ)
    (had : obj.animation_data = some ad) (hact : ad.action = some act)
    (hs : lookupSnap start_locs obj.id = some s)
    (hidx : ∀ fc ∈ act.fcurves, fc.data_path = "location" →
      fc.array_index < 3) :
    ∃ obj', grabConfirmObj start_locs obj = some obj' ∧
      obj'.location = obj.location ∧
      ∃ ad' act', obj'.animation_data = some ad' ∧ ad'.action = some act' ∧
        List.Forall₂ (fun fc fc' =>
          (fc.data_path = "location" →
            ∀ d, (obj.location.sub s).get fc.array_index = some d →
              fc' = { fc with keyframe_points := fc.keyframe_points.map (fun kp => { kp with co := { kp.co with y := kp.co.y + d } }) }) ∧
          (¬ fc.data_path = "location" → fc' = fc))
          act.fcurves act'.fcurves := by
  obtain ⟨fcs', hfcs, hrel⟩ := grabOffsetFCurves_forall (obj.location.sub s)
    act.fcurves
    (fun fc hfc hdp => Vec3.get_of_lt _ _ (hidx fc hfc hdp))
  refine ⟨{ obj with animation_data := some ({ ad with action := some ({ act with fcurves := fcs' }) }) },
    ?_, rfl, ⟨{ ad with action := some ({ act with fcurves := fcs' }) },
    { act with fcurves := fcs' }, rfl, rfl, hrel⟩⟩
  simp [grabConfirmObj, had, hact, hs, hfcs]

/-- Witness for C1 at the spec's scenario: an object at snapshot position
(0,0,0) with one position-X keyframe of value 5, moved to (2,0,0) and
confirmed, ends with that keyframe at value 7. -/
theorem grab_confirm_adds_delta_witness :
    (∃ obj', grabConfirmObj [(0, ⟨0, 0, 0⟩)]
        ⟨0, ⟨2, 0, 0⟩, ⟨0, 0, 0⟩, ⟨1, 1, 1⟩,
          some ⟨some ⟨[⟨"location", 0, [⟨⟨1, 5⟩⟩]⟩]⟩⟩⟩ = some obj' ∧
      obj'.location = Vec3.mk 2 0 0 ∧
      ∃ ad' act', obj'.animation_data = some ad' ∧ ad'.action = some act' ∧
        List.Forall₂ (fun fc fc' =>
          (fc.data_path = "location" →
            ∀ d, ((Vec3.mk (2 : ℚ) 0 0).sub ⟨0, 0, 0⟩).get fc.array_index =
                some d →
              fc' = { fc with keyframe_points := fc.keyframe_points.map (fun kp => { kp with co := { kp.co with y := kp.co.y + d } }) }) ∧
          (¬ fc.data_path = "location" → fc' = fc))
          [⟨"location", 0, [⟨⟨1, 5⟩⟩]⟩] act'.fcurves) ∧
    grabConfirmObj [(0, ⟨0, 0, 0⟩)]
        ⟨0, ⟨2, 0, 0⟩, ⟨0, 0, 0⟩, ⟨1, 1, 1⟩,
          some ⟨some ⟨[⟨"location", 0, [⟨⟨1, 5⟩⟩]⟩]⟩⟩⟩ =
      some ⟨0, ⟨2, 0, 0⟩, ⟨0, 0, 0⟩, ⟨1, 1, 1⟩,
        some ⟨some ⟨[⟨"location", 0, [⟨⟨1, 7⟩⟩]⟩]⟩⟩⟩ :=
  ⟨grab_confirm_adds_delta_to_location_keyframes _ _ _ _ _ rfl rfl rfl
    (by decide), by norm_num [grabConfirmObj, lookupSnap, grabOffsetFCurves,
      grabOffsetKps, Vec3.sub, Vec3.get]⟩

theorem scaleOffsetKps_map (delta : Vec3 ℚ) (i : Nat) (d : ℚ)
    (h : delta.get i = some d) (kps : List (KeyframePoint ℚ)) :
    scaleOffsetKps delta i kps =
      some (kps.map
        (fun kp => { kp with co := { kp.co with y := kp.co.y * (1 + d) } })) := by
  induction kps with
  | nil => rfl
  | cons kp rest ih => simp [scaleOffsetKps, h, ih]

theorem scaleOffsetFCurves_forall (delta : Vec3 ℚ) (fcs : List (FCurve ℚ))
    (hidx : ∀ fc ∈ fcs, fc.data_path = "scale" →
      ∃ d, delta.get fc.array_index = some d) :
    ∃ fcs', scaleOffsetFCurves delta fcs = some fcs' ∧
      List.Forall₂ (fun fc fc' =>
        (fc.data_path = "scale" →
          ∀ d, delta.get fc.array_index = some d →
            fc' = { fc with keyframe_points := fc.keyframe_points.map (fun kp => { kp with co := { kp.co with y := kp.co.y * (1 + d) } }) }) ∧
        (¬ fc.data_path = "scale" → fc' = fc)) fcs fcs' := by
  induction fcs with
  | nil => exact ⟨[], rfl, List.Forall₂.nil⟩
  | cons fc rest ih =>
    obtain ⟨rest', hrest, hrel⟩ :=
      ih (fun f hf => hidx f (List.mem_cons_of_mem _ hf))
    by_cases hdp : fc.data_path = "scale"
    · obtain ⟨d, hd⟩ := hidx fc (List.mem_cons_self _ _) hdp
      refine ⟨{ fc with keyframe_points := fc.keyframe_points.map (fun kp => { kp with co := { kp.co with y := kp.co.y * (1 + d) } }) } :: rest',
        ?_, List.Forall₂.cons ⟨?_, ?_⟩ hrel⟩
      · simp [scaleOffsetFCurves, hdp, scaleOffsetKps_map delta _ d hd, hrest]
      · intro _ d' hd'
        rw [hd] at hd'
        cases hd'
        rfl
      · intro hcon
        exact absurd hdp hcon
    · refine ⟨fc :: rest',
        ?_, List.Forall₂.cons ⟨fun hcon => absurd hcon hdp, fun _ => rfl⟩ hrel⟩
      simp [scaleOffsetFCurves, hdp, hrest]

/-- C2: for every selected object with animation data, an action and a
snapshot whose scale components are all nonzero, confirming the scale
gesture multiplies the value of every keyframe point of every fcurve with
data_path "scale" by (1 + (F[i]/S[i] - 1)), where F is the final scale,
S the snapshot scale and i the curve's array_index. -/
theorem scale_confirm_multiplies_scale_keyframes
    (start_scales : SnapMap ℚ) (obj : Obj ℚ) (ad : AnimationData ℚ)
    (act : Action ℚ) (s : Vec3 ℚ)
    (had : obj.animation_data = some ad) (hact : ad.action = some act)
    (hs : lookupSnap start_scales obj.id = some s)
    (hx : s.x ≠ 0) (hy : s.y ≠ 0) (hz : s.z ≠ 0)
    (hidx : ∀ fc ∈ act.fcurves, fc.data_path = "scale" →
      fc.array_index < 3) :
    ∃ obj', scaleConfirmObj start_scales obj = some obj' ∧
      obj'.scale = obj.scale ∧
      ∃ ad' act', obj'.animation_data = some ad' ∧ ad'.action = some act' ∧
        List.Forall₂ (fun fc fc' =>
          (fc.data_path = "scale" →
            ∀ d, (Vec3.mk (obj.scale.x / s.x - 1) (obj.scale.y / s.y - 1)
                (obj.scale.z / s.z - 1)).get fc.array_index = some d →
              fc' = { fc with keyframe_points := fc.keyframe_points.map (fun kp => { kp with co := { kp.co with y := kp.co.y * (1 + d) } }) }) ∧
          (¬ fc.data_path = "scale" → fc' = fc))
          act.fcurves act'.fcurves := by
  obtain ⟨fcs', hfcs, hrel⟩ := scaleOffsetFCurves_forall
    ⟨obj.scale.x / s.x - 1, obj.scale.y / s.y - 1, obj.scale.z / s.z - 1⟩
    act.fcurves
    (fun fc hfc hdp => Vec3.get_of_lt _ _ (hidx fc hfc hdp))
  refine ⟨{ obj with animation_data := some ({ ad with action := some ({ act with fcurves := fcs' }) }) },
    ?_, rfl, ⟨{ ad with action := some ({ act with fcurves := fcs' }) },
    { act with fcurves := fcs' }, rfl, rfl, hrel⟩⟩
  simp [scaleConfirmObj, had, hact, hs, fdiv, hx, hy, hz, hfcs]

/-- Witness for C2 at the spec's scenario: an object scaled from the
snapshot (1,1,1) to (1,2,1) with one scale-Y keyframe of value 3 ends,
after confirmation, with that keyframe at value 6. -/
theorem scale_confirm_multiplies_witness :
    (∃ obj', scaleConfirmObj [(0, ⟨1, 1, 1⟩)]
        ⟨0, ⟨0, 0, 0⟩, ⟨0, 0, 0⟩, ⟨1, 2, 1⟩,
          some ⟨some ⟨[⟨"scale", 1, [⟨⟨1, 3⟩⟩]⟩]⟩⟩⟩ = some obj' ∧
      obj'.scale = Vec3.mk 1 2 1 ∧
      ∃ ad' act', obj'.animation_data = some ad' ∧ ad'.action = some act' ∧
        List.Forall₂ (fun fc fc' =>
          (fc.data_path = "scale" →
            ∀ d, (Vec3.mk ((1 : ℚ) / 1 - 1) ((2 : ℚ) / 1 - 1)
                ((1 : ℚ) / 1 - 1)).get fc.array_index = some d →
              fc' = { fc with keyframe_points := fc.keyframe_points.map (fun kp => { kp with co := { kp.co with y := kp.co.y * (1 + d) } }) }) ∧
          (¬ fc.data_path = "scale" → fc' = fc))
          [⟨"scale", 1, [⟨⟨1, 3⟩⟩]⟩] act'.fcurves) ∧
    scaleConfirmObj [(0, ⟨1, 1, 1⟩)]
        ⟨0, ⟨0, 0, 0⟩, ⟨0, 0, 0⟩, ⟨1, 2, 1⟩,
          some ⟨some ⟨[⟨"scale", 1, [⟨⟨1, 3⟩⟩]⟩]⟩⟩⟩ =
      some ⟨0, ⟨0, 0, 0⟩, ⟨0, 0, 0⟩, ⟨1, 2, 1⟩,
        some ⟨some ⟨[⟨"scale", 1, [⟨⟨1, 6⟩⟩]⟩]⟩⟩⟩ :=
  ⟨scale_confirm_multiplies_scale_keyframes [(0, ⟨1, 1, 1⟩)]
    ⟨0, ⟨0, 0, 0⟩, ⟨0, 0, 0⟩, ⟨1, 2, 1⟩,
      some ⟨some ⟨[⟨"scale", 1, [⟨⟨1, 3⟩⟩]⟩]⟩⟩⟩
    ⟨some ⟨[⟨"scale", 1, [⟨⟨1, 3⟩⟩]⟩]⟩⟩ ⟨[⟨"scale", 1, [⟨⟨1, 3⟩⟩]⟩]⟩
    ⟨1, 1, 1⟩ rfl rfl rfl
    (by norm_num) (by norm_num) (by norm_num) (by decide),
    by norm_num [scaleConfirmObj, lookupSnap, scaleOffsetFCurves,
      scaleOffsetKps, fdiv, Vec3.get]⟩

/-- C3: for every selected object with a snapshot S, cancelling the
gesture (right mouse or escape) returns CANCELLED, sets the operator's
live transform component (location for grab, rotation_euler for rotate,
scale for scale) back exactly to S, and leaves everything else about the
object, in particular every keyframe of every animation curve,
unmodified. -/
theorem cancel_restores_snapshot_transform :
    (∀ (start_locs : SnapMap ℚ) (objs : List (Obj ℚ)) (e : Event) (k : Nat)
      (obj : Obj ℚ) (s : Vec3 ℚ),
      e.type = EvType.RIGHTMOUSE ∨ e.type = EvType.ESC →
      objs.get? k = some obj →
      lookupSnap start_locs obj.id = some s →
      ∃ objs', grabModal start_locs objs e =
          some (start_locs, objs', OpResult.CANCELLED) ∧
        objs'.get? k = some { obj with location := s }) ∧
    (∀ (start_rots : SnapMap ℝ) (objs : List (Obj ℝ)) (e : Event) (k : Nat)
      (obj : Obj ℝ) (s : Vec3 ℝ),
      e.type = EvType.RIGHTMOUSE ∨ e.type = EvType.ESC →
      objs.get? k = some obj →
      lookupSnap start_rots obj.id = some s →
      ∃ objs', rotateModal start_rots objs e =
          some (start_rots, objs', OpResult.CANCELLED) ∧
        objs'.get? k = some { obj with rotation_euler := s }) ∧
    (∀ (start_scales : SnapMap ℚ) (objs : List (Obj ℚ)) (e : Event) (k : Nat)
      (obj : Obj ℚ) (s : Vec3 ℚ),
      e.type = EvType.RIGHTMOUSE ∨ e.type = EvType.ESC →
      objs.get? k = some obj →
      lookupSnap start_scales obj.id = some s →
      ∃ objs', scaleModal start_scales objs e =
          some (start_scales, objs', OpResult.CANCELLED) ∧
        objs'.get? k = some { obj with scale := s }) := by
  refine ⟨?_, ?_, ?_⟩
  · intro start objs e k obj s he hk hs
    refine ⟨objs.map (grabCancelObj start), ?_, ?_⟩
    · rcases he with h | h <;> simp [grabModal, h]
    · rw [List.get?_map, hk]
      simp [grabCancelObj, hs]
  · intro start objs e k obj s he hk hs
    refine ⟨objs.map (rotateCancelObj start), ?_, ?_⟩
    · rcases he with h | h <;> simp [rotateModal, h]
    · rw [List.get?_map, hk]
      simp [rotateCancelObj, hs]
  · intro start objs e k obj s he hk hs
    refine ⟨objs.map (scaleCancelObj start), ?_, ?_⟩
    · rcases he with h | h <;> simp [scaleModal, h]
    · rw [List.get?_map, hk]
      simp [scaleCancelObj, hs]

/-- Witness for C3 at the spec's scenario: the grab of an object with
snapshot position (0,0,0) moved to (2,0,0) is cancelled with escape, and
the object's position reverts to (0,0,0) with its position-X keyframe
still at value 5; similarly for a rotate and a scale cancellation. -/
theorem cancel_restores_snapshot_witness :
    (∃ objs', grabModal [(0, ⟨0, 0, 0⟩)]
        [⟨0, ⟨2, 0, 0⟩, ⟨0, 0, 0⟩, ⟨1, 1, 1⟩,
          some ⟨some ⟨[⟨"location", 0, [⟨⟨1, 5⟩⟩]⟩]⟩⟩⟩]
        ⟨EvType.ESC, EvValue.PRESS⟩ =
          some ([(0, ⟨0, 0, 0⟩)], objs', OpResult.CANCELLED) ∧
      objs'.get? 0 = some ⟨0, ⟨0, 0, 0⟩, ⟨0, 0, 0⟩, ⟨1, 1, 1⟩,
        some ⟨some ⟨[⟨"location", 0, [⟨⟨1, 5⟩⟩]⟩]⟩⟩⟩) ∧
    (∃ objs', rotateModal [(0, ⟨0, 0, 0⟩)]
        [⟨0, ⟨0, 0, 0⟩, ⟨1, 0, 0⟩, ⟨1, 1, 1⟩, none⟩]
        ⟨EvType.RIGHTMOUSE, EvValue.PRESS⟩ =
          some ([(0, ⟨0, 0, 0⟩)], objs', OpResult.CANCELLED) ∧
      objs'.get? 0 = some ⟨0, ⟨0, 0, 0⟩, ⟨0, 0, 0⟩, ⟨1, 1, 1⟩, none⟩) ∧
    (∃ objs', scaleModal [(0, ⟨1, 1, 1⟩)]
        [⟨0, ⟨0, 0, 0⟩, ⟨0, 0, 0⟩, ⟨1, 2, 1⟩,
          some ⟨some ⟨[⟨"scale", 1, [⟨⟨1, 3⟩⟩]⟩]⟩⟩⟩]
        ⟨EvType.ESC, EvValue.PRESS⟩ =
          some ([(0, ⟨1, 1, 1⟩)], objs', OpResult.CANCELLED) ∧
      objs'.get? 0 = some ⟨0, ⟨0, 0, 0⟩, ⟨0, 0, 0⟩, ⟨1, 1, 1⟩,
        some ⟨some ⟨[⟨"scale", 1, [⟨⟨1, 3⟩⟩]⟩]⟩⟩⟩) :=
  ⟨cancel_restores_snapshot_transform.1 [(0, ⟨0, 0, 0⟩)]
      [⟨0, ⟨2, 0, 0⟩, ⟨0, 0, 0⟩, ⟨1, 1, 1⟩,
        some ⟨some ⟨[⟨"location", 0, [⟨⟨1, 5⟩⟩]⟩]⟩⟩⟩]
      ⟨EvType.ESC, EvValue.PRESS⟩ 0 _ _ (Or.inr rfl) rfl rfl,
    cancel_restores_snapshot_transform.2.1 [(0, ⟨0, 0, 0⟩)]
      [⟨0, ⟨0, 0, 0⟩, ⟨1, 0, 0⟩, ⟨1, 1, 1⟩, none⟩]
      ⟨EvType.RIGHTMOUSE, EvValue.PRESS⟩ 0 _ _ (Or.inl rfl) rfl rfl,
    cancel_restores_snapshot_transform.2.2 [(0, ⟨1, 1, 1⟩)]
      [⟨0, ⟨0, 0, 0⟩, ⟨0, 0, 0⟩, ⟨1, 2, 1⟩,
        some ⟨some ⟨[⟨"scale", 1, [⟨⟨1, 3⟩⟩]⟩]⟩⟩⟩]
      ⟨EvType.ESC, EvValue.PRESS⟩ 0 _ _ (Or.inr rfl) rfl rfl⟩

/-- C5: for every selected object with no animation data, or with
animation data but no active action, the offset step of each of the three
confirm branches returns the object completely unchanged (no fault, no
keyframe edit, no transform edit): only the host transform, which acted
before confirmation, affects such objects. -/
theorem offset_step_skips_unanimated_objects :
    (∀ (start_locs : SnapMap ℚ) (obj : Obj ℚ),
      obj.animation_data = none ∨
        (∃ ad, obj.animation_data = some ad ∧ ad.action = none) →
      grabConfirmObj start_locs obj = some obj) ∧
    (∀ (start_rots : SnapMap ℝ) (obj : Obj ℝ),
      obj.animation_data = none ∨
        (∃ ad, obj.animation_data = some ad ∧ ad.action = none) →
      rotateConfirmObj start_rots obj = some obj) ∧
    (∀ (start_scales : SnapMap ℚ) (obj : Obj ℚ),
      obj.animation_data = none ∨
        (∃ ad, obj.animation_data = some ad ∧ ad.action = none) →
      scaleConfirmObj start_scales obj = some obj) := by
  refine ⟨?_, ?_, ?_⟩
  · intro st obj h
    rcases h with h | ⟨ad, had, hact⟩
    · simp [grabConfirmObj, h]
    · simp [grabConfirmObj, had, hact]
  · intro st obj h
    rcases h with h | ⟨ad, had, hact⟩
    · simp [rotateConfirmObj, h]
    · simp [rotateConfirmObj, had, hact]
  · intro st obj h
    rcases h with h | ⟨ad, had, hact⟩
    · simp [scaleConfirmObj, h]
    · simp [scaleConfirmObj, had, hact]

/-- Witness for C5: a concrete object with no animation data passes
through grab's offset step unchanged, one with animation data but an
empty action slot passes through rotate's offset step unchanged, and one
with no animation data passes through scale's offset step unchanged. -/
theorem offset_step_skips_unanimated_witness :
    grabConfirmObj [(0, ⟨0, 0, 0⟩)]
        ⟨0, ⟨2, 0, 0⟩, ⟨0, 0, 0⟩, ⟨1, 1, 1⟩, none⟩ =
      some ⟨0, ⟨2, 0, 0⟩, ⟨0, 0, 0⟩, ⟨1, 1, 1⟩, none⟩ ∧
    rotateConfirmObj [(0, ⟨0, 0, 0⟩)]
        ⟨0, ⟨0, 0, 0⟩, ⟨1, 0, 0⟩, ⟨1, 1, 1⟩, some ⟨none⟩⟩ =
      some ⟨0, ⟨0, 0, 0⟩, ⟨1, 0, 0⟩, ⟨1, 1, 1⟩, some ⟨none⟩⟩ ∧
    scaleConfirmObj [(0, ⟨1, 1, 1⟩)]
        ⟨0, ⟨0, 0, 0⟩, ⟨0, 0, 0⟩, ⟨1, 2, 1⟩, none⟩ =
      some ⟨0, ⟨0, 0, 0⟩, ⟨0, 0, 0⟩, ⟨1, 2, 1⟩, none⟩ :=
  ⟨offset_step_skips_unanimated_objects.1 [(0, ⟨0, 0, 0⟩)]
      ⟨0, ⟨2, 0, 0⟩, ⟨0, 0, 0⟩, ⟨1, 1, 1⟩, none⟩ (Or.inl rfl),
    offset_step_skips_unanimated_objects.2.1 [(0, ⟨0, 0, 0⟩)]
      ⟨0, ⟨0, 0, 0⟩, ⟨1, 0, 0⟩, ⟨1, 1, 1⟩, some ⟨none⟩⟩
      (Or.inr ⟨⟨none⟩, rfl, rfl⟩),
    offset_step_skips_unanimated_objects.2.2 [(0, ⟨1, 1, 1⟩)]
      ⟨0, ⟨0, 0, 0⟩, ⟨0, 0, 0⟩, ⟨1, 2, 1⟩, none⟩ (Or.inl rfl)⟩

/-- C9: an object that had a snapshot taken at invocation but has no
animation data (or no active action) at confirmation time is skipped by
the confirm step without fault, and prepending it to a selection whose
confirmation succeeds still lets the whole confirmation succeed, with the
object passed through unchanged; this holds for all three operators. -/
theorem confirm_skips_object_that_lost_animation :
    (∀ (start_locs : SnapMap ℚ) (obj : Obj ℚ) (s : Vec3 ℚ)
      (rest res : List (Obj ℚ)),
      lookupSnap start_locs obj.id = some s →
      obj.animation_data = none ∨
        (∃ ad, obj.animation_data = some ad ∧ ad.action = none) →
      grabConfirmObj start_locs obj = some obj ∧
      (grabConfirmList start_locs rest = some res →
        grabConfirmList start_locs (obj :: rest) = some (obj :: res))) ∧
    (∀ (start_rots : SnapMap ℝ) (obj : Obj ℝ) (s : Vec3 ℝ)
      (rest res : List (Obj ℝ)),
      lookupSnap start_rots obj.id = some s →
      obj.animation_data = none ∨
        (∃ ad, obj.animation_data = some ad ∧ ad.action = none) →
      rotateConfirmObj start_rots obj = some obj ∧
      (rotateConfirmList start_rots rest = some res →
        rotateConfirmList start_rots (obj :: rest) = some (obj :: res))) ∧
    (∀ (start_scales : SnapMap ℚ) (obj : Obj ℚ) (s : Vec3 ℚ)
      (rest res : List (Obj ℚ)),
      lookupSnap start_scales obj.id = some s →
      obj.animation_data = none ∨
        (∃ ad, obj.animation_data = some ad ∧ ad.action = none) →
      scaleConfirmObj start_scales obj = some obj ∧
      (scaleConfirmList start_scales rest = some res →
        scaleConfirmList start_scales (obj :: rest) = some (obj :: res))) := by
  refine ⟨?_, ?_, ?_⟩
  · intro st obj s rest res _ h
    have hobj : grabConfirmObj st obj = some obj := by
      rcases h with h | ⟨ad, had, hact⟩
      · simp [grabConfirmObj, h]
      · simp [grabConfirmObj, had, hact]
    exact ⟨hobj, fun hrest => by simp [grabConfirmList, hobj, hrest]⟩
  · intro st obj s rest res _ h
    have hobj : rotateConfirmObj st obj = some obj := by
      rcases h with h | ⟨ad, had, hact⟩
      · simp [rotateConfirmObj, h]
      · simp [rotateConfirmObj, had, hact]
    exact ⟨hobj, fun hrest => by simp [rotateConfirmList, hobj, hrest]⟩
  · intro st obj s rest res _ h
    have hobj : scaleConfirmObj st obj = some obj := by
      rcases h with h | ⟨ad, had, hact⟩
      · simp [scaleConfirmObj, h]
      · simp [scaleConfirmObj, had, hact]
    exact ⟨hobj, fun hrest => by simp [scaleConfirmList, hobj, hrest]⟩

/-- Witness for C9: an object whose id 0 has a snapshot but whose
animation data is gone is skipped unchanged by each operator's confirm
step, and the confirmation of the selection consisting of just that
object still succeeds. -/
theorem confirm_skips_lost_animation_witness :
    (grabConfirmObj [(0, ⟨0, 0, 0⟩)]
        ⟨0, ⟨2, 0, 0⟩, ⟨0, 0, 0⟩, ⟨1, 1, 1⟩, none⟩ =
      some ⟨0, ⟨2, 0, 0⟩, ⟨0, 0, 0⟩, ⟨1, 1, 1⟩, none⟩ ∧
      (grabConfirmList [(0, ⟨0, 0, 0⟩)] [] = some [] →
        grabConfirmList [(0, ⟨0, 0, 0⟩)]
          [⟨0, ⟨2, 0, 0⟩, ⟨0, 0, 0⟩, ⟨1, 1, 1⟩, none⟩] =
          some [⟨0, ⟨2, 0, 0⟩, ⟨0, 0, 0⟩, ⟨1, 1, 1⟩, none⟩])) ∧
    (rotateConfirmObj [(0, ⟨0, 0, 0⟩)]
        ⟨0, ⟨0, 0, 0⟩, ⟨1, 0, 0⟩, ⟨1, 1, 1⟩, some ⟨none⟩⟩ =
      some ⟨0, ⟨0, 0, 0⟩, ⟨1, 0, 0⟩, ⟨1, 1, 1⟩, some ⟨none⟩⟩ ∧
      (rotateConfirmList [(0, ⟨0, 0, 0⟩)] [] = some [] →
        rotateConfirmList [(0, ⟨0, 0, 0⟩)]
          [⟨0, ⟨0, 0, 0⟩, ⟨1, 0, 0⟩, ⟨1, 1, 1⟩, some ⟨none⟩⟩] =
          some [⟨0, ⟨0, 0, 0⟩, ⟨1, 0, 0⟩, ⟨1, 1, 1⟩, some ⟨none⟩⟩])) ∧
    (scaleConfirmObj [(0, ⟨1, 1, 1⟩)]
        ⟨0, ⟨0, 0, 0⟩, ⟨0, 0, 0⟩, ⟨1, 2, 1⟩, none⟩ =
      some ⟨0, ⟨0, 0, 0⟩, ⟨0, 0, 0⟩, ⟨1, 2, 1⟩, none⟩ ∧
      (scaleConfirmList [(0, ⟨1, 1, 1⟩)] [] = some [] →
        scaleConfirmList [(0, ⟨1, 1, 1⟩)]
          [⟨0, ⟨0, 0, 0⟩, ⟨0, 0, 0⟩, ⟨1, 2, 1⟩, none⟩] =
          some [⟨0, ⟨0, 0, 0⟩, ⟨0, 0, 0⟩, ⟨1, 2, 1⟩, none⟩])) :=
  ⟨confirm_skips_object_that_lost_animation.1 [(0, ⟨0, 0, 0⟩)]
      ⟨0, ⟨2, 0, 0⟩, ⟨0, 0, 0⟩, ⟨1, 1, 1⟩, none⟩ ⟨0, 0, 0⟩ [] []
      rfl (Or.inl rfl),
    confirm_skips_object_that_lost_animation.2.1 [(0, ⟨0, 0, 0⟩)]
      ⟨0, ⟨0, 0, 0⟩, ⟨1, 0, 0⟩, ⟨1, 1, 1⟩, some ⟨none⟩⟩ ⟨0, 0, 0⟩ [] []
      rfl (Or.inr ⟨⟨none⟩, rfl, rfl⟩),
    confirm_skips_object_that_lost_animation.2.2 [(0, ⟨1, 1, 1⟩)]
      ⟨0, ⟨0, 0, 0⟩, ⟨0, 0, 0⟩, ⟨1, 2, 1⟩, none⟩ ⟨1, 1, 1⟩ [] []
      rfl (Or.inl rfl)⟩

theorem scaleConfirmList_none (start_scales : SnapMap ℚ)
    (objs : List (Obj ℚ)) (obj : Obj ℚ) (hmem : obj ∈ objs)
    (hobj : scaleConfirmObj start_scales obj = none) :
    scaleConfirmList start_scales objs = none := by
  induction objs with
  | nil => cases hmem
  | cons a rest ih =>
    rcases List.mem_cons.mp hmem with rfl | hm
    · simp [scaleConfirmList, hobj]
    · cases ha : scaleConfirmObj start_scales a <;>
        simp [scaleConfirmList, ha, ih hm]

/-- C6: any selected animated object whose snapshot scale has a zero
component on some axis makes the scale-delta computation divide by zero
when the scale gesture is confirmed: the per-object offset step faults
(none), and so does the whole confirm branch of scale's modal method.
The division obj.scale[i] / start_scales[obj][i] is unguarded. -/
theorem scale_confirm_zero_snapshot_component_faults
    (start_scales : SnapMap ℚ) (objs : List (Obj ℚ)) (obj : Obj ℚ)
    (ad : AnimationData ℚ) (act : Action ℚ) (s : Vec3 ℚ)
    (hmem : obj ∈ objs)
    (had : obj.animation_data = some ad) (hact : ad.action = some act)
    (hs : lookupSnap start_scales obj.id = some s)
    (hzero : s.x = 0 ∨ s.y = 0 ∨ s.z = 0) :
    scaleConfirmObj start_scales obj = none ∧
    scaleModal start_scales objs ⟨EvType.LEFTMOUSE, EvValue.RELEASE⟩ =
      none := by
  have hobj : scaleConfirmObj start_scales obj = none := by
    rcases hzero with h | h | h
    · simp [scaleConfirmObj, had, hact, hs, fdiv, h]
    · cases h1 : fdiv obj.scale.x s.x <;>
        simp [scaleConfirmObj, had, hact, hs, h1, fdiv, h]
    · cases h1 : fdiv obj.scale.x s.x <;>
        cases h2 : fdiv obj.scale.y s.y <;>
          simp [scaleConfirmObj, had, hact, hs, h1, h2, fdiv, h]
  exact ⟨hobj,
    by simp [scaleModal, scaleConfirmList_none start_scales objs obj hmem hobj]⟩

/-- Witness for C6: an animated object whose snapshot scale is (0,1,1)
makes the scale confirm fault. -/
theorem scale_confirm_zero_snapshot_witness :
    scaleConfirmObj [(0, ⟨0, 1, 1⟩)]
        ⟨0, ⟨0, 0, 0⟩, ⟨0, 0, 0⟩, ⟨1, 2, 1⟩,
          some ⟨some ⟨[⟨"scale", 1, [⟨⟨1, 3⟩⟩]⟩]⟩⟩⟩ = none ∧
    scaleModal [(0, ⟨0, 1, 1⟩)]
        [⟨0, ⟨0, 0, 0⟩, ⟨0, 0, 0⟩, ⟨1, 2, 1⟩,
          some ⟨some ⟨[⟨"scale", 1, [⟨⟨1, 3⟩⟩]⟩]⟩⟩⟩]
        ⟨EvType.LEFTMOUSE, EvValue.RELEASE⟩ = none :=
  scale_confirm_zero_snapshot_component_faults [(0, ⟨0, 1, 1⟩)]
    [⟨0, ⟨0, 0, 0⟩, ⟨0, 0, 0⟩, ⟨1, 2, 1⟩,
      some ⟨some ⟨[⟨"scale", 1, [⟨⟨1, 3⟩⟩]⟩]⟩⟩⟩]
    ⟨0, ⟨0, 0, 0⟩, ⟨0, 0, 0⟩, ⟨1, 2, 1⟩,
      some ⟨some ⟨[⟨"scale", 1, [⟨⟨1, 3⟩⟩]⟩]⟩⟩⟩
    ⟨some ⟨[⟨"scale", 1, [⟨⟨1, 3⟩⟩]⟩]⟩⟩ ⟨[⟨"scale", 1, [⟨⟨1, 3⟩⟩]⟩]⟩
    ⟨0, 1, 1⟩ (List.mem_cons_self _ _) rfl rfl rfl (Or.inl rfl)

theorem radians_degrees (t : ℝ) : radians (degrees t) = t := by
  unfold radians degrees
  field_simp

theorem rotOffsetKps_degrees (a b c : ℝ) (i : Nat)
    (kps : List (KeyframePoint ℝ)) :
    rotOffsetKps ⟨degrees a, degrees b, degrees c⟩ i kps =
      rotOffsetKpsDirect ⟨a, b, c⟩ i kps := by
  have hget : Vec3.get (⟨degrees a, degrees b, degrees c⟩ : Vec3 ℝ) i =
      (Vec3.get (⟨a, b, c⟩ : Vec3 ℝ) i).map degrees := by
    match i with
    | 0 => rfl
    | 1 => rfl
    | 2 => rfl
    | n + 3 => rfl
  induction kps with
  | nil => rfl
  | cons kp rest ih =>
    rw [rotOffsetKps, rotOffsetKpsDirect, hget, ih]
    cases Vec3.get (⟨a, b, c⟩ : Vec3 ℝ) i with
    | none => rfl
    | some t =>
      cases rotOffsetKpsDirect (⟨a, b, c⟩ : Vec3 ℝ) i rest with
      | none => rfl
      | some rest' => simp [radians_degrees]

theorem rotOffsetFCurves_degrees (a b c : ℝ) (fcs : List (FCurve ℝ)) :
    rotOffsetFCurves ⟨degrees a, degrees b, degrees c⟩ fcs =
      rotOffsetFCurvesDirect ⟨a, b, c⟩ fcs := by
  induction fcs with
  | nil => rfl
  | cons fc rest ih =>
    rw [rotOffsetFCurves, rotOffsetFCurvesDirect, ih,
      rotOffsetKps_degrees a b c fc.array_index fc.keyframe_points]

/-- C7: the degrees round-trip in the rotate-confirm keyframe update is a
no-op over exact real arithmetic: radians(degrees(x - s)) equals the
direct radian difference x - s for all final and snapshot values, and
consequently the implemented per-object rotate confirm step coincides
with the direct-subtraction variant on every snapshot map and every
object. -/
theorem rotate_confirm_equals_direct_subtraction :
    (∀ x s : ℝ, radians (degrees (x - s)) = x - s) ∧
    (∀ (start_rots : SnapMap ℝ) (obj : Obj ℝ),
      rotateConfirmObj start_rots obj =
        rotateConfirmObjDirect start_rots obj) := by
  refine ⟨fun x s => radians_degrees (x - s), fun st obj => ?_⟩
  rcases had : obj.animation_data with _ | ad
  · simp [rotateConfirmObj, rotateConfirmObjDirect, had]
  rcases hact : ad.action with _ | act
  · simp [rotateConfirmObj, rotateConfirmObjDirect, had, hact]
  rcases hs : lookupSnap st obj.id with _ | s
  · simp [rotateConfirmObj, rotateConfirmObjDirect, had, hact, hs]
  simp only [rotateConfirmObj, rotateConfirmObjDirect, had, hact, hs,
    rotOffsetFCurves_degrees]

theorem anyAnimated_eq_false {α : Type} (objs : List (Obj α))
    (h : ∀ obj ∈ objs, isAnimatedObj obj = false) :
    anyAnimated objs = false := by
  induction objs with
  | nil => rfl
  | cons obj rest ih =>
    simp [anyAnimated, h obj (List.mem_cons_self _ _),
      ih (fun o ho => h o (List.mem_cons_of_mem _ ho))]

theorem snapList_eq_nil {α : Type} (f : Obj α → Vec3 α) (objs : List (Obj α))
    (h : ∀ obj ∈ objs, isAnimatedObj obj = false) :
    snapList f objs = [] := by
  induction objs with
  | nil => rfl
  | cons obj rest ih =>
    simp [snapList, h obj (List.mem_cons_self _ _),
      ih (fun o ho => h o (List.mem_cons_of_mem _ ho))]

/-- Counterexample to C4: invoking grab with a leftover snapshot from an
earlier gesture and a selection containing no animated object does report
the warning and cancel, but it is not free of state mutation: the stored
snapshot map is changed (cleared) by the invocation, from a non-empty map
to the empty one. -/
theorem invoke_no_animated_mutates_stored_state :
    (grabInvoke [(0, ⟨9, 9, 9⟩)]
        [⟨1, ⟨5, 0, 0⟩, ⟨0, 0, 0⟩, ⟨1, 1, 1⟩, none⟩]).2.1 =
      OpResult.CANCELLED ∧
    (grabInvoke [(0, ⟨9, 9, 9⟩)]
        [⟨1, ⟨5, 0, 0⟩, ⟨0, 0, 0⟩, ⟨1, 1, 1⟩, none⟩]).2.2 = true ∧
    ¬ (grabInvoke [(0, ⟨9, 9, 9⟩)]
        [⟨1, ⟨5, 0, 0⟩, ⟨0, 0, 0⟩, ⟨1, 1, 1⟩, none⟩]).1 =
      [(0, ⟨9, 9, 9⟩)] := by
  refine ⟨rfl, rfl, ?_⟩
  show ¬ ([] : SnapMap ℚ) = [(0, ⟨9, 9, 9⟩)]
  simp

/-- C4 as amended: if no selected object carries animation data at
invocation time, each of the three invoke methods reports a warning-level
message and returns CANCELLED without touching any object transform or
keyframe (invoke only reads the objects); the class-level snapshot map is
cleared (reset to empty) at the start of the invocation, and that clearing
is the only stored-state change. -/
theorem invoke_no_animated_warns_and_cancels :
    (∀ (prev : SnapMap ℚ) (objs : List (Obj ℚ)),
      (∀ obj ∈ objs, isAnimatedObj obj = false) →
      grabInvoke prev objs = ([], OpResult.CANCELLED, true)) ∧
    (∀ (prev : SnapMap ℝ) (objs : List (Obj ℝ)),
      (∀ obj ∈ objs, isAnimatedObj obj = false) →
      rotateInvoke prev objs = ([], OpResult.CANCELLED, true)) ∧
    (∀ (prev : SnapMap ℚ) (objs : List (Obj ℚ)),
      (∀ obj ∈ objs, isAnimatedObj obj = false) →
      scaleInvoke prev objs = ([], OpResult.CANCELLED, true)) := by
  refine ⟨?_, ?_, ?_⟩ <;>
    intro prev objs h <;>
      simp [grabInvoke, rotateInvoke, scaleInvoke,
        anyAnimated_eq_false objs h, snapList_eq_nil _ objs h]

/-- Witness for the amended C4: a selection holding only one object
without animation data makes each invoke warn and cancel with an emptied
snapshot map, for any leftover snapshot contents. -/
theorem invoke_no_animated_warns_witness :
    grabInvoke [(0, ⟨9, 9, 9⟩)]
        [⟨1, ⟨5, 0, 0⟩, ⟨0, 0, 0⟩, ⟨1, 1, 1⟩, none⟩] =
      ([], OpResult.CANCELLED, true) ∧
    rotateInvoke []
        [⟨1, ⟨0, 0, 0⟩, ⟨1, 0, 0⟩, ⟨1, 1, 1⟩, some ⟨none⟩⟩] =
      ([], OpResult.CANCELLED, true) ∧
    scaleInvoke [(0, ⟨1, 1, 1⟩)] [] = ([], OpResult.CANCELLED, true) :=
  ⟨invoke_no_animated_warns_and_cancels.1 [(0, ⟨9, 9, 9⟩)]
      [⟨1, ⟨5, 0, 0⟩, ⟨0, 0, 0⟩, ⟨1, 1, 1⟩, none⟩] (by decide),
    invoke_no_animated_warns_and_cancels.2.1 []
      [⟨1, ⟨0, 0, 0⟩, ⟨1, 0, 0⟩, ⟨1, 1, 1⟩, some ⟨none⟩⟩]
      (by intro obj hobj; rcases List.mem_singleton.mp hobj with rfl; rfl),
    invoke_no_animated_warns_and_cancels.2.2 [(0, ⟨1, 1, 1⟩)] []
      (by intro obj hobj; cases hobj)⟩

/-- Counterexample to C8: the snapshot storage is not discarded at
interaction end.  A concrete grab gesture over one animated object is
invoked (filling the class-level map), the host moves the object, and the
gesture is confirmed with FINISHED; the state returned by the confirming
modal call still carries the invocation's snapshot entry, a non-empty
map, so snapshot state survives the gesture. -/
theorem snapshot_survives_gesture_end :
    grabInvoke [] [⟨0, ⟨0, 0, 0⟩, ⟨0, 0, 0⟩, ⟨1, 1, 1⟩,
        some ⟨some ⟨[⟨"location", 0, [⟨⟨1, 5⟩⟩]⟩]⟩⟩⟩] =
      ([(0, ⟨0, 0, 0⟩)], OpResult.RUNNING_MODAL, false) ∧
    grabModal [(0, ⟨0, 0, 0⟩)]
        [⟨0, ⟨2, 0, 0⟩, ⟨0, 0, 0⟩, ⟨1, 1, 1⟩,
          some ⟨some ⟨[⟨"location", 0, [⟨⟨1, 5⟩⟩]⟩]⟩⟩⟩]
        ⟨EvType.LEFTMOUSE, EvValue.RELEASE⟩ =
      some ([(0, ⟨0, 0, 0⟩)],
        [⟨0, ⟨2, 0, 0⟩, ⟨0, 0, 0⟩, ⟨1, 1, 1⟩,
          some ⟨some ⟨[⟨"location", 0, [⟨⟨1, 7⟩⟩]⟩]⟩⟩⟩],
        OpResult.FINISHED) ∧
    ¬ ([(0, (⟨0, 0, 0⟩ : Vec3 ℚ))] : SnapMap ℚ) = [] := by
  refine ⟨rfl, ?_, by simp⟩
  norm_num [grabModal, grabConfirmList, grabConfirmObj, lookupSnap,
    grabOffsetFCurves, grabOffsetKps, Vec3.sub, Vec3.get]
  all_goals decide

/-- C8 as amended: the snapshot mapping is captured at invocation start
and rebuilt there from scratch — the outcome of invoke is independent of
whatever the class-level map held before, which models the
start-of-invocation clear — and the modal method never modifies it; but
the storage is class-level rather than instance-owned, and it is not
discarded at interaction end: every modal outcome, FINISHED and CANCELLED
included, returns the snapshot map unchanged, so it survives the
gesture. -/
theorem snapshot_storage_lifecycle :
    (∀ (prev prev' : SnapMap ℚ) (objs : List (Obj ℚ)),
      grabInvoke prev objs = grabInvoke prev' objs) ∧
    (∀ (prev prev' : SnapMap ℝ) (objs : List (Obj ℝ)),
      rotateInvoke prev objs = rotateInvoke prev' objs) ∧
    (∀ (prev prev' : SnapMap ℚ) (objs : List (Obj ℚ)),
      scaleInvoke prev objs = scaleInvoke prev' objs) ∧
    (∀ (start_locs : SnapMap ℚ) (objs : List (Obj ℚ)) (e : Event)
      (out : SnapMap ℚ × List (Obj ℚ) × OpResult),
      grabModal start_locs objs e = some out → out.1 = start_locs) ∧
    (∀ (start_rots : SnapMap ℝ) (objs : List (Obj ℝ)) (e : Event)
      (out : SnapMap ℝ × List (Obj ℝ) × OpResult),
      rotateModal start_rots objs e = some out → out.1 = start_rots) ∧
    (∀ (start_scales : SnapMap ℚ) (objs : List (Obj ℚ)) (e : Event)
      (out : SnapMap ℚ × List (Obj ℚ) × OpResult),
      scaleModal start_scales objs e = some out → out.1 = start_scales) := by
  refine ⟨fun _ _ _ => rfl, fun _ _ _ => rfl, fun _ _ _ => rfl, ?_, ?_, ?_⟩
  · intro st objs e out h
    unfold grabModal at h
    split_ifs at h
    · cases h; rfl
    · cases hcl : grabConfirmList st objs with
      | none => rw [hcl] at h; cases h
      | some objs' => rw [hcl] at h; cases h; rfl
    · cases h; rfl
    · cases h; rfl
  · intro st objs e out h
    unfold rotateModal at h
    split_ifs at h
    · cases h; rfl
    · cases hcl : rotateConfirmList st objs with
      | none => rw [hcl] at h; cases h
      | some objs' => rw [hcl] at h; cases h; rfl
    · cases h; rfl
    · cases h; rfl
  · intro st objs e out h
    unfold scaleModal at h
    split_ifs at h
    · cases h; rfl
    · cases hcl : scaleConfirmList st objs with
      | none => rw [hcl] at h; cases h
      | some objs' => rw [hcl] at h; cases h; rfl
    · cases h; rfl
    · cases h; rfl

/-- Witness for the amended C8: concrete invocations ignore the previous
snapshot contents, and a concrete modal call (a pass-through mouse move)
returns its snapshot map unchanged, for all three operators. -/
theorem snapshot_storage_lifecycle_witness :
    grabInvoke [(0, ⟨9, 9, 9⟩)] [] = grabInvoke [] [] ∧
    rotateInvoke [(0, ⟨9, 9, 9⟩)] [] = rotateInvoke [] [] ∧
    scaleInvoke [(0, ⟨9, 9, 9⟩)] [] = scaleInvoke [] [] ∧
    (([(0, ⟨1, 2, 3⟩)], [], OpResult.PASS_THROUGH) :
        SnapMap ℚ × List (Obj ℚ) × OpResult).1 =
      ([(0, ⟨1, 2, 3⟩)] : SnapMap ℚ) ∧
    (([(0, ⟨1, 2, 3⟩)], [], OpResult.PASS_THROUGH) :
        SnapMap ℝ × List (Obj ℝ) × OpResult).1 =
      ([(0, ⟨1, 2, 3⟩)] : SnapMap ℝ) ∧
    (([(0, ⟨4, 5, 6⟩)], [], OpResult.PASS_THROUGH) :
        SnapMap ℚ × List (Obj ℚ) × OpResult).1 =
      ([(0, ⟨4, 5, 6⟩)] : SnapMap ℚ) :=
  ⟨snapshot_storage_lifecycle.1 [(0, ⟨9, 9, 9⟩)] [] [],
    snapshot_storage_lifecycle.2.1 [(0, ⟨9, 9, 9⟩)] [] [],
    snapshot_storage_lifecycle.2.2.1 [(0, ⟨9, 9, 9⟩)] [] [],
    snapshot_storage_lifecycle.2.2.2.1 [(0, ⟨1, 2, 3⟩)] []
      ⟨EvType.MOUSEMOVE, EvValue.NOTHING⟩
      ([(0, ⟨1, 2, 3⟩)], [], OpResult.PASS_THROUGH) rfl,
    snapshot_storage_lifecycle.2.2.2.2.1 [(0, ⟨1, 2, 3⟩)] []
      ⟨EvType.MOUSEMOVE, EvValue.NOTHING⟩
      ([(0, ⟨1, 2, 3⟩)], [], OpResult.PASS_THROUGH) rfl,
    snapshot_storage_lifecycle.2.2.2.2.2 [(0, ⟨4, 5, 6⟩)] []
      ⟨EvType.MOUSEMOVE, EvValue.NOTHING⟩
      ([(0, ⟨4, 5, 6⟩)], [], OpResult.PASS_THROUGH) rfl⟩

theorem forall₂_frame_refl {α : Type} (chan : String) (fcs : List (FCurve α)) :
    List.Forall₂ (fun fc fc' => fc'.data_path = fc.data_path ∧
      fc'.array_index = fc.array_index ∧
      List.Forall₂ (fun kp kp' => kp'.co.x = kp.co.x)
        fc.keyframe_points fc'.keyframe_points ∧
      (¬ fc.data_path = chan → fc' = fc)) fcs fcs := by
  rw [List.forall₂_same]
  intro fc _
  exact ⟨rfl, rfl, by rw [List.forall₂_same]; intro kp _; rfl, fun _ => rfl⟩

theorem grabOffsetKps_shape (delta : Vec3 ℚ) (i : Nat)
    (kps : List (KeyframePoint ℚ)) :
    ∀ kps', grabOffsetKps delta i kps = some kps' →
      List.Forall₂ (fun kp kp' => kp'.co.x = kp.co.x) kps kps' := by
  induction kps with
  | nil =>
    intro kps' h
    simp only [grabOffsetKps] at h
    cases h
    exact List.Forall₂.nil
  | cons kp rest ih =>
    intro kps' h
    cases hd : delta.get i with
    | none => simp [grabOffsetKps, hd] at h
    | some d =>
      cases hr : grabOffsetKps delta i rest with
      | none => simp [grabOffsetKps, hd, hr] at h
      | some rest' =>
        simp only [grabOffsetKps, hd, hr] at h
        cases h
        exact List.Forall₂.cons rfl (ih rest' hr)

theorem grabOffsetFCurves_shape (delta : Vec3 ℚ) (fcs : List (FCurve ℚ)) :
    ∀ fcs', grabOffsetFCurves delta fcs = some fcs' →
      List.Forall₂ (fun fc fc' => fc'.data_path = fc.data_path ∧
        fc'.array_index = fc.array_index ∧
        List.Forall₂ (fun kp kp' => kp'.co.x = kp.co.x)
          fc.keyframe_points fc'.keyframe_points ∧
        (¬ fc.data_path = "location" → fc' = fc)) fcs fcs' := by
  induction fcs with
  | nil =>
    intro fcs' h
    simp only [grabOffsetFCurves] at h
    cases h
    exact List.Forall₂.nil
  | cons fc rest ih =>
    intro fcs' h
    by_cases hdp : fc.data_path = "location"
    · cases hk : grabOffsetKps delta fc.array_index fc.keyframe_points with
      | none => simp [grabOffsetFCurves, hdp, hk] at h
      | some kps' =>
        cases hr : grabOffsetFCurves delta rest with
        | none => simp [grabOffsetFCurves, hdp, hk, hr] at h
        | some rest' =>
          simp only [grabOffsetFCurves, hdp, if_true, hk, hr] at h
          cases h
          exact List.Forall₂.cons
            ⟨hdp.symm, rfl, grabOffsetKps_shape delta fc.array_index _ kps' hk,
              fun hcon => absurd hdp hcon⟩ (ih rest' hr)
    · cases hr : grabOffsetFCurves delta rest with
      | none => simp [grabOffsetFCurves, hdp, hr] at h
      | some rest' =>
        simp only [grabOffsetFCurves, hdp, if_false, hr] at h
        cases h
        exact List.Forall₂.cons
          ⟨rfl, rfl, (List.forall₂_same).mpr (fun kp _ => rfl), fun _ => rfl⟩
          (ih rest' hr)

theorem grabConfirmObj_shape (start_locs : SnapMap ℚ) (obj obj' : Obj ℚ)
    (h : grabConfirmObj start_locs obj = some obj') :
    obj'.id = obj.id ∧ obj'.location = obj.location ∧
    obj'.rotation_euler = obj.rotation_euler ∧ obj'.scale = obj.scale ∧
    ∀ ad act, obj.animation_data = some ad → ad.action = some act →
      ∃ ad' act', obj'.animation_data = some ad' ∧ ad'.action = some act' ∧
        List.Forall₂ (fun fc fc' => fc'.data_path = fc.data_path ∧
          fc'.array_index = fc.array_index ∧
          List.Forall₂ (fun kp kp' => kp'.co.x = kp.co.x)
            fc.keyframe_points fc'.keyframe_points ∧
          (¬ fc.data_path = "location" → fc' = fc))
          act.fcurves act'.fcurves := by
  obtain ⟨oid, oloc, orot, oscl, oad⟩ := obj
  rcases oad with _ | ⟨oact⟩
  · injection h with h1
    subst h1
    exact ⟨rfl, rfl, rfl, rfl, fun ad act had' _ => Option.noConfusion had'⟩
  rcases oact with _ | act
  · injection h with h1
    subst h1
    refine ⟨rfl, rfl, rfl, rfl, fun ad₀ act₀ had' hact' => ?_⟩
    injection had' with h2
    subst h2
    exact Option.noConfusion hact'
  rcases hs : lookupSnap start_locs oid with _ | s
  · simp only [grabConfirmObj, hs] at h
    injection h with h1
    subst h1
    refine ⟨rfl, rfl, rfl, rfl, fun ad₀ act₀ had' hact' => ?_⟩
    injection had' with h2
    subst h2
    injection hact' with h3
    subst h3
    exact ⟨⟨some act⟩, act, rfl, rfl, forall₂_frame_refl _ _⟩
  cases hf : grabOffsetFCurves (oloc.sub s) act.fcurves with
  | none => simp [grabConfirmObj, hs, hf] at h
  | some fcs' =>
    simp only [grabConfirmObj, hs, hf] at h
    injection h with h1
    subst h1
    refine ⟨rfl, rfl, rfl, rfl, fun ad₀ act₀ had' hact' => ?_⟩
    injection had' with h2
    subst h2
    injection hact' with h3
    subst h3
    exact ⟨⟨some ⟨fcs'⟩⟩, ⟨fcs'⟩, rfl, rfl,
      grabOffsetFCurves_shape _ _ fcs' hf⟩

theorem rotOffsetKps_shape (delta : Vec3 ℝ) (i : Nat)
    (kps : List (KeyframePoint ℝ)) :
    ∀ kps', rotOffsetKps delta i kps = some kps' →
      List.Forall₂ (fun kp kp' => kp'.co.x = kp.co.x) kps kps' := by
  induction kps with
  | nil =>
    intro kps' h
    simp only [rotOffsetKps] at h
    cases h
    exact List.Forall₂.nil
  | cons kp rest ih =>
    intro kps' h
    cases hd : delta.get i with
    | none => simp [rotOffsetKps, hd] at h
    | some d =>
      cases hr : rotOffsetKps delta i rest with
      | none => simp [rotOffsetKps, hd, hr] at h
      | some rest' =>
        simp only [rotOffsetKps, hd, hr] at h
        cases h
        exact List.Forall₂.cons rfl (ih rest' hr)

theorem rotOffsetFCurves_shape (delta : Vec3 ℝ) (fcs : List (FCurve ℝ)) :
    ∀ fcs', rotOffsetFCurves delta fcs = some fcs' →
      List.Forall₂ (fun fc fc' => fc'.data_path = fc.data_path ∧
        fc'.array_index = fc.array_index ∧
        List.Forall₂ (fun kp kp' => kp'.co.x = kp.co.x)
          fc.keyframe_points fc'.keyframe_points ∧
        (¬ fc.data_path = "rotation_euler" → fc' = fc)) fcs fcs' := by
  induction fcs with
  | nil =>
    intro fcs' h
    simp only [rotOffsetFCurves] at h
    cases h
    exact List.Forall₂.nil
  | cons fc rest ih =>
    intro fcs' h
    by_cases hdp : fc.data_path = "rotation_euler"
    · cases hk : rotOffsetKps delta fc.array_index fc.keyframe_points with
      | none => simp [rotOffsetFCurves, hdp, hk] at h
      | some kps' =>
        cases hr : rotOffsetFCurves delta rest with
        | none => simp [rotOffsetFCurves, hdp, hk, hr] at h
        | some rest' =>
          simp only [rotOffsetFCurves, hdp, if_true, hk, hr] at h
          cases h
          exact List.Forall₂.cons
            ⟨hdp.symm, rfl, rotOffsetKps_shape delta fc.array_index _ kps' hk,
              fun hcon => absurd hdp hcon⟩ (ih rest' hr)
    · cases hr : rotOffsetFCurves delta rest with
      | none => simp [rotOffsetFCurves, hdp, hr] at h
      | some rest' =>
        simp only [rotOffsetFCurves, hdp, if_false, hr] at h
        cases h
        exact List.Forall₂.cons
          ⟨rfl, rfl, (List.forall₂_same).mpr (fun kp _ => rfl), fun _ => rfl⟩
          (ih rest' hr)

theorem rotateConfirmObj_shape (start_rots : SnapMap ℝ) (obj obj' : Obj ℝ)
    (h : rotateConfirmObj start_rots obj = some obj') :
    obj'.id = obj.id ∧ obj'.location = obj.location ∧
    obj'.rotation_euler = obj.rotation_euler ∧ obj'.scale = obj.scale ∧
    ∀ ad act, obj.animation_data = some ad → ad.action = some act →
      ∃ ad' act', obj'.animation_data = some ad' ∧ ad'.action = some act' ∧
        List.Forall₂ (fun fc fc' => fc'.data_path = fc.data_path ∧
          fc'.array_index = fc.array_index ∧
          List.Forall₂ (fun kp kp' => kp'.co.x = kp.co.x)
            fc.keyframe_points fc'.keyframe_points ∧
          (¬ fc.data_path = "rotation_euler" → fc' = fc))
          act.fcurves act'.fcurves := by
  obtain ⟨oid, oloc, orot, oscl, oad⟩ := obj
  rcases oad with _ | ⟨oact⟩
  · injection h with h1
    subst h1
    exact ⟨rfl, rfl, rfl, rfl, fun ad act had' _ => Option.noConfusion had'⟩
  rcases oact with _ | act
  · injection h with h1
    subst h1
    refine ⟨rfl, rfl, rfl, rfl, fun ad₀ act₀ had' hact' => ?_⟩
    injection had' with h2
    subst h2
    exact Option.noConfusion hact'
  rcases hs : lookupSnap start_rots oid with _ | s
  · simp only [rotateConfirmObj, hs] at h
    injection h with h1
    subst h1
    refine ⟨rfl, rfl, rfl, rfl, fun ad₀ act₀ had' hact' => ?_⟩
    injection had' with h2
    subst h2
    injection hact' with h3
    subst h3
    exact ⟨⟨some act⟩, act, rfl, rfl, forall₂_frame_refl _ _⟩
  cases hf : rotOffsetFCurves
      ⟨degrees (orot.x - s.x), degrees (orot.y - s.y), degrees (orot.z - s.z)⟩
      act.fcurves with
  | none => simp [rotateConfirmObj, hs, hf] at h
  | some fcs' =>
    simp only [rotateConfirmObj, hs, hf] at h
    injection h with h1
    subst h1
    refine ⟨rfl, rfl, rfl, rfl, fun ad₀ act₀ had' hact' => ?_⟩
    injection had' with h2
    subst h2
    injection hact' with h3
    subst h3
    exact ⟨⟨some ⟨fcs'⟩⟩, ⟨fcs'⟩, rfl, rfl,
      rotOffsetFCurves_shape _ _ fcs' hf⟩

theorem scaleOffsetKps_shape (delta : Vec3 ℚ) (i : Nat)
    (kps : List (KeyframePoint ℚ)) :
    ∀ kps', scaleOffsetKps delta i kps = some kps' →
      List.Forall₂ (fun kp kp' => kp'.co.x = kp.co.x) kps kps' := by
  induction kps with
  | nil =>
    intro kps' h
    simp only [scaleOffsetKps] at h
    cases h
    exact List.Forall₂.nil
  | cons kp rest ih =>
    intro kps' h
    cases hd : delta.get i with
    | none => simp [scaleOffsetKps, hd] at h
    | some d =>
      cases hr : scaleOffsetKps delta i rest with
      | none => simp [scaleOffsetKps, hd, hr] at h
      | some rest' =>
        simp only [scaleOffsetKps, hd, hr] at h
        cases h
        exact List.Forall₂.cons rfl (ih rest' hr)

theorem scaleOffsetFCurves_shape (delta : Vec3 ℚ) (fcs : List (FCurve ℚ)) :
    ∀ fcs', scaleOffsetFCurves delta fcs = some fcs' →
      List.Forall₂ (fun fc fc' => fc'.data_path = fc.data_path ∧
        fc'.array_index = fc.array_index ∧
        List.Forall₂ (fun kp kp' => kp'.co.x = kp.co.x)
          fc.keyframe_points fc'.keyframe_points ∧
        (¬ fc.data_path = "scale" → fc' = fc)) fcs fcs' := by
  induction fcs with
  | nil =>
    intro fcs' h
    simp only [scaleOffsetFCurves] at h
    cases h
    exact List.Forall₂.nil
  | cons fc rest ih =>
    intro fcs' h
    by_cases hdp : fc.data_path = "scale"
    · cases hk : scaleOffsetKps delta fc.array_index fc.keyframe_points with
      | none => simp [scaleOffsetFCurves, hdp, hk] at h
      | some kps' =>
        cases hr : scaleOffsetFCurves delta rest with
        | none => simp [scaleOffsetFCurves, hdp, hk, hr] at h
        | some rest' =>
          simp only [scaleOffsetFCurves, hdp, if_true, hk, hr] at h
          cases h
          exact List.Forall₂.cons
            ⟨hdp.symm, rfl, scaleOffsetKps_shape delta fc.array_index _ kps' hk,
              fun hcon => absurd hdp hcon⟩ (ih rest' hr)
    · cases hr : scaleOffsetFCurves delta rest with
      | none => simp [scaleOffsetFCurves, hdp, hr] at h
      | some rest' =>
        simp only [scaleOffsetFCurves, hdp, if_false, hr] at h
        cases h
        exact List.Forall₂.cons
          ⟨rfl, rfl, (List.forall₂_same).mpr (fun kp _ => rfl), fun _ => rfl⟩
          (ih rest' hr)

theorem scaleConfirmObj_shape (start_scales : SnapMap ℚ) (obj obj' : Obj ℚ)
    (h : scaleConfirmObj start_scales obj = some obj') :
    obj'.id = obj.id ∧ obj'.location = obj.location ∧
    obj'.rotation_euler = obj.rotation_euler ∧ obj'.scale = obj.scale ∧
    ∀ ad act, obj.animation_data = some ad → ad.action = some act →
      ∃ ad' act', obj'.animation_data = some ad' ∧ ad'.action = some act' ∧
        List.Forall₂ (fun fc fc' => fc'.data_path = fc.data_path ∧
          fc'.array_index = fc.array_index ∧
          List.Forall₂ (fun kp kp' => kp'.co.x = kp.co.x)
            fc.keyframe_points fc'.keyframe_points ∧
          (¬ fc.data_path = "scale" → fc' = fc))
          act.fcurves act'.fcurves := by
  obtain ⟨oid, oloc, orot, oscl, oad⟩ := obj
  rcases oad with _ | ⟨oact⟩
  · injection h with h1
    subst h1
    exact ⟨rfl, rfl, rfl, rfl, fun ad act had' _ => Option.noConfusion had'⟩
  rcases oact with _ | act
  · injection h with h1
    subst h1
    refine ⟨rfl, rfl, rfl, rfl, fun ad₀ act₀ had' hact' => ?_⟩
    injection had' with h2
    subst h2
    exact Option.noConfusion hact'
  rcases hs : lookupSnap start_scales oid with _ | s
  · simp only [scaleConfirmObj, hs] at h
    injection h with h1
    subst h1
    refine ⟨rfl, rfl, rfl, rfl, fun ad₀ act₀ had' hact' => ?_⟩
    injection had' with h2
    subst h2
    injection hact' with h3
    subst h3
    exact ⟨⟨some act⟩, act, rfl, rfl, forall₂_frame_refl _ _⟩
  cases h0 : fdiv oscl.x s.x with
  | none => simp [scaleConfirmObj, hs, h0] at h
  | some q0 =>
  cases h1 : fdiv oscl.y s.y with
  | none => simp [scaleConfirmObj, hs, h0, h1] at h
  | some q1 =>
  cases h2 : fdiv oscl.z s.z with
  | none => simp [scaleConfirmObj, hs, h0, h1, h2] at h
  | some q2 =>
  cases hf : scaleOffsetFCurves ⟨q0 - 1, q1 - 1, q2 - 1⟩ act.fcurves with
  | none => simp [scaleConfirmObj, hs, h0, h1, h2, hf] at h
  | some fcs' =>
    simp only [scaleConfirmObj, hs, h0, h1, h2, hf] at h
    injection h with hinj
    subst hinj
    refine ⟨rfl, rfl, rfl, rfl, fun ad₀ act₀ had' hact' => ?_⟩
    injection had' with hinj2
    subst hinj2
    injection hact' with hinj3
    subst hinj3
    exact ⟨⟨some ⟨fcs'⟩⟩, ⟨fcs'⟩, rfl, rfl,
      scaleOffsetFCurves_shape _ _ fcs' hf⟩

/-- C10: each confirm offset step mutates only the value component (co.y)
of keyframe points, and only on fcurves whose data_path matches the
operator's channel: whenever the per-object offset step succeeds, the
object's id and all three live transform components are unchanged, every
fcurve keeps its data_path, array_index and every keyframe time
component (co.x), and every fcurve whose data_path differs from the
operator's channel ("location" for grab, "rotation_euler" for rotate,
"scale" for scale) is left completely unchanged. -/
theorem confirm_mutates_only_matching_keyframe_values :
    (∀ (start_locs : SnapMap ℚ) (obj obj' : Obj ℚ),
      grabConfirmObj start_locs obj = some obj' →
      obj'.id = obj.id ∧ obj'.location = obj.location ∧
      obj'.rotation_euler = obj.rotation_euler ∧ obj'.scale = obj.scale ∧
      ∀ ad act, obj.animation_data = some ad → ad.action = some act →
        ∃ ad' act', obj'.animation_data = some ad' ∧
          ad'.action = some act' ∧
          List.Forall₂ (fun fc fc' => fc'.data_path = fc.data_path ∧
            fc'.array_index = fc.array_index ∧
            List.Forall₂ (fun kp kp' => kp'.co.x = kp.co.x)
              fc.keyframe_points fc'.keyframe_points ∧
            (¬ fc.data_path = "location" → fc' = fc))
            act.fcurves act'.fcurves) ∧
    (∀ (start_rots : SnapMap ℝ) (obj obj' : Obj ℝ),
      rotateConfirmObj start_rots obj = some obj' →
      obj'.id = obj.id ∧ obj'.location = obj.location ∧
      obj'.rotation_euler = obj.rotation_euler ∧ obj'.scale = obj.scale ∧
      ∀ ad act, obj.animation_data = some ad → ad.action = some act →
        ∃ ad' act', obj'.animation_data = some ad' ∧
          ad'.action = some act' ∧
          List.Forall₂ (fun fc fc' => fc'.data_path = fc.data_path ∧
            fc'.array_index = fc.array_index ∧
            List.Forall₂ (fun kp kp' => kp'.co.x = kp.co.x)
              fc.keyframe_points fc'.keyframe_points ∧
            (¬ fc.data_path = "rotation_euler" → fc' = fc))
            act.fcurves act'.fcurves) ∧
    (∀ (start_scales : SnapMap ℚ) (obj obj' : Obj ℚ),
      scaleConfirmObj start_scales obj = some obj' →
      obj'.id = obj.id ∧ obj'.location = obj.location ∧
      obj'.rotation_euler = obj.rotation_euler ∧ obj'.scale = obj.scale ∧
      ∀ ad act, obj.animation_data = some ad → ad.action = some act →
        ∃ ad' act', obj'.animation_data = some ad' ∧
          ad'.action = some act' ∧
          List.Forall₂ (fun fc fc' => fc'.data_path = fc.data_path ∧
            fc'.array_index = fc.array_index ∧
            List.Forall₂ (fun kp kp' => kp'.co.x = kp.co.x)
              fc.keyframe_points fc'.keyframe_points ∧
            (¬ fc.data_path = "scale" → fc' = fc))
            act.fcurves act'.fcurves) :=
  ⟨fun st obj obj' h => grabConfirmObj_shape st obj obj' h,
    fun st obj obj' h => rotateConfirmObj_shape st obj obj' h,
    fun st obj obj' h => scaleConfirmObj_shape st obj obj' h⟩

/-- Witness for C10: concrete confirm steps whose offset succeeds (a grab
over an object holding only a scale fcurve, a rotate over an object
holding only a location fcurve, and a scale over an object holding only a
location fcurve) satisfy the frame conditions. -/
theorem confirm_mutates_only_matching_witness :
    ((⟨0, ⟨2, 0, 0⟩, ⟨0, 0, 0⟩, ⟨1, 1, 1⟩, some ⟨some ⟨[⟨"scale", 1, [⟨⟨1, 3⟩⟩]⟩]⟩⟩⟩ : Obj ℚ).id =
        (⟨0, ⟨2, 0, 0⟩, ⟨0, 0, 0⟩, ⟨1, 1, 1⟩, some ⟨some ⟨[⟨"scale", 1, [⟨⟨1, 3⟩⟩]⟩]⟩⟩⟩ : Obj ℚ).id ∧
      (⟨0, ⟨2, 0, 0⟩, ⟨0, 0, 0⟩, ⟨1, 1, 1⟩, some ⟨some ⟨[⟨"scale", 1, [⟨⟨1, 3⟩⟩]⟩]⟩⟩⟩ : Obj ℚ).location =
        (⟨0, ⟨2, 0, 0⟩, ⟨0, 0, 0⟩, ⟨1, 1, 1⟩, some ⟨some ⟨[⟨"scale", 1, [⟨⟨1, 3⟩⟩]⟩]⟩⟩⟩ : Obj ℚ).location ∧
      (⟨0, ⟨2, 0, 0⟩, ⟨0, 0, 0⟩, ⟨1, 1, 1⟩, some ⟨some ⟨[⟨"scale", 1, [⟨⟨1, 3⟩⟩]⟩]⟩⟩⟩ : Obj ℚ).rotation_euler =
        (⟨0, ⟨2, 0, 0⟩, ⟨0, 0, 0⟩, ⟨1, 1, 1⟩, some ⟨some ⟨[⟨"scale", 1, [⟨⟨1, 3⟩⟩]⟩]⟩⟩⟩ : Obj ℚ).rotation_euler ∧
      (⟨0, ⟨2, 0, 0⟩, ⟨0, 0, 0⟩, ⟨1, 1, 1⟩, some ⟨some ⟨[⟨"scale", 1, [⟨⟨1, 3⟩⟩]⟩]⟩⟩⟩ : Obj ℚ).scale =
        (⟨0, ⟨2, 0, 0⟩, ⟨0, 0, 0⟩, ⟨1, 1, 1⟩, some ⟨some ⟨[⟨"scale", 1, [⟨⟨1, 3⟩⟩]⟩]⟩⟩⟩ : Obj ℚ).scale ∧
      ∀ ad act,
        (⟨0, ⟨2, 0, 0⟩, ⟨0, 0, 0⟩, ⟨1, 1, 1⟩, some ⟨some ⟨[⟨"scale", 1, [⟨⟨1, 3⟩⟩]⟩]⟩⟩⟩ : Obj ℚ).animation_data = some ad →
        ad.action = some act →
        ∃ ad' act',
          (⟨0, ⟨2, 0, 0⟩, ⟨0, 0, 0⟩, ⟨1, 1, 1⟩, some ⟨some ⟨[⟨"scale", 1, [⟨⟨1, 3⟩⟩]⟩]⟩⟩⟩ : Obj ℚ).animation_data = some ad' ∧
          ad'.action = some act' ∧
          List.Forall₂ (fun fc fc' => fc'.data_path = fc.data_path ∧
            fc'.array_index = fc.array_index ∧
            List.Forall₂ (fun kp kp' => kp'.co.x = kp.co.x)
              fc.keyframe_points fc'.keyframe_points ∧
            (¬ fc.data_path = "location" → fc' = fc))
            act.fcurves act'.fcurves) ∧
    ((⟨0, ⟨0, 0, 0⟩, ⟨1, 0, 0⟩, ⟨1, 1, 1⟩, some ⟨some ⟨[⟨"location", 0, [⟨⟨1, 5⟩⟩]⟩]⟩⟩⟩ : Obj ℝ).id =
        (⟨0, ⟨0, 0, 0⟩, ⟨1, 0, 0⟩, ⟨1, 1, 1⟩, some ⟨some ⟨[⟨"location", 0, [⟨⟨1, 5⟩⟩]⟩]⟩⟩⟩ : Obj ℝ).id ∧
      (⟨0, ⟨0, 0, 0⟩, ⟨1, 0, 0⟩, ⟨1, 1, 1⟩, some ⟨some ⟨[⟨"location", 0, [⟨⟨1, 5⟩⟩]⟩]⟩⟩⟩ : Obj ℝ).location =
        (⟨0, ⟨0, 0, 0⟩, ⟨1, 0, 0⟩, ⟨1, 1, 1⟩, some ⟨some ⟨[⟨"location", 0, [⟨⟨1, 5⟩⟩]⟩]⟩⟩⟩ : Obj ℝ).location ∧
      (⟨0, ⟨0, 0, 0⟩, ⟨1, 0, 0⟩, ⟨1, 1, 1⟩, some ⟨some ⟨[⟨"location", 0, [⟨⟨1, 5⟩⟩]⟩]⟩⟩⟩ : Obj ℝ).rotation_euler =
        (⟨0, ⟨0, 0, 0⟩, ⟨1, 0, 0⟩, ⟨1, 1, 1⟩, some ⟨some ⟨[⟨"location", 0, [⟨⟨1, 5⟩⟩]⟩]⟩⟩⟩ : Obj ℝ).rotation_euler ∧
      (⟨0, ⟨0, 0, 0⟩, ⟨1, 0, 0⟩, ⟨1, 1, 1⟩, some ⟨some ⟨[⟨"location", 0, [⟨⟨1, 5⟩⟩]⟩]⟩⟩⟩ : Obj ℝ).scale =
        (⟨0, ⟨0, 0, 0⟩, ⟨1, 0, 0⟩, ⟨1, 1, 1⟩, some ⟨some ⟨[⟨"location", 0, [⟨⟨1, 5⟩⟩]⟩]⟩⟩⟩ : Obj ℝ).scale ∧
      ∀ ad act,
        (⟨0, ⟨0, 0, 0⟩, ⟨1, 0, 0⟩, ⟨1, 1, 1⟩, some ⟨some ⟨[⟨"location", 0, [⟨⟨1, 5⟩⟩]⟩]⟩⟩⟩ : Obj ℝ).animation_data = some ad →
        ad.action = some act →
        ∃ ad' act',
          (⟨0, ⟨0, 0, 0⟩, ⟨1, 0, 0⟩, ⟨1, 1, 1⟩, some ⟨some ⟨[⟨"location", 0, [⟨⟨1, 5⟩⟩]⟩]⟩⟩⟩ : Obj ℝ).animation_data = some ad' ∧
          ad'.action = some act' ∧
          List.Forall₂ (fun fc fc' => fc'.data_path = fc.data_path ∧
            fc'.array_index = fc.array_index ∧
            List.Forall₂ (fun kp kp' => kp'.co.x = kp.co.x)
              fc.keyframe_points fc'.keyframe_points ∧
            (¬ fc.data_path = "rotation_euler" → fc' = fc))
            act.fcurves act'.fcurves) ∧
    ((⟨0, ⟨0, 0, 0⟩, ⟨0, 0, 0⟩, ⟨1, 2, 1⟩, some ⟨some ⟨[⟨"location", 0, [⟨⟨1, 5⟩⟩]⟩]⟩⟩⟩ : Obj ℚ).id =
        (⟨0, ⟨0, 0, 0⟩, ⟨0, 0, 0⟩, ⟨1, 2, 1⟩, some ⟨some ⟨[⟨"location", 0, [⟨⟨1, 5⟩⟩]⟩]⟩⟩⟩ : Obj ℚ).id ∧
      (⟨0, ⟨0, 0, 0⟩, ⟨0, 0, 0⟩, ⟨1, 2, 1⟩, some ⟨some ⟨[⟨"location", 0, [⟨⟨1, 5⟩⟩]⟩]⟩⟩⟩ : Obj ℚ).location =
        (⟨0, ⟨0, 0, 0⟩, ⟨0, 0, 0⟩, ⟨1, 2, 1⟩, some ⟨some ⟨[⟨"location", 0, [⟨⟨1, 5⟩⟩]⟩]⟩⟩⟩ : Obj ℚ).location ∧
      (⟨0, ⟨0, 0, 0⟩, ⟨0, 0, 0⟩, ⟨1, 2, 1⟩, some ⟨some ⟨[⟨"location", 0, [⟨⟨1, 5⟩⟩]⟩]⟩⟩⟩ : Obj ℚ).rotation_euler =
        (⟨0, ⟨0, 0, 0⟩, ⟨0, 0, 0⟩, ⟨1, 2, 1⟩, some ⟨some ⟨[⟨"location", 0, [⟨⟨1, 5⟩⟩]⟩]⟩⟩⟩ : Obj ℚ).rotation_euler ∧
      (⟨0, ⟨0, 0, 0⟩, ⟨0, 0, 0⟩, ⟨1, 2, 1⟩, some ⟨some ⟨[⟨"location", 0, [⟨⟨1, 5⟩⟩]⟩]⟩⟩⟩ : Obj ℚ).scale =
        (⟨0, ⟨0, 0, 0⟩, ⟨0, 0, 0⟩, ⟨1, 2, 1⟩, some ⟨some ⟨[⟨"location", 0, [⟨⟨1, 5⟩⟩]⟩]⟩⟩⟩ : Obj ℚ).scale ∧
      ∀ ad act,
        (⟨0, ⟨0, 0, 0⟩, ⟨0, 0, 0⟩, ⟨1, 2, 1⟩, some ⟨some ⟨[⟨"location", 0, [⟨⟨1, 5⟩⟩]⟩]⟩⟩⟩ : Obj ℚ).animation_data = some ad →
        ad.action = some act →
        ∃ ad' act',
          (⟨0, ⟨0, 0, 0⟩, ⟨0, 0, 0⟩, ⟨1, 2, 1⟩, some ⟨some ⟨[⟨"location", 0, [⟨⟨1, 5⟩⟩]⟩]⟩⟩⟩ : Obj ℚ).animation_data = some ad' ∧
          ad'.action = some act' ∧
          List.Forall₂ (fun fc fc' => fc'.data_path = fc.data_path ∧
            fc'.array_index = fc.array_index ∧
            List.Forall₂ (fun kp kp' => kp'.co.x = kp.co.x)
              fc.keyframe_points fc'.keyframe_points ∧
            (¬ fc.data_path = "scale" → fc' = fc))
            act.fcurves act'.fcurves) :=
  ⟨confirm_mutates_only_matching_keyframe_values.1 [(0, ⟨0, 0, 0⟩)]
      ⟨0, ⟨2, 0, 0⟩, ⟨0, 0, 0⟩, ⟨1, 1, 1⟩, some ⟨some ⟨[⟨"scale", 1, [⟨⟨1, 3⟩⟩]⟩]⟩⟩⟩
      ⟨0, ⟨2, 0, 0⟩, ⟨0, 0, 0⟩, ⟨1, 1, 1⟩, some ⟨some ⟨[⟨"scale", 1, [⟨⟨1, 3⟩⟩]⟩]⟩⟩⟩
      rfl,
    confirm_mutates_only_matching_keyframe_values.2.1 [(0, ⟨0, 0, 0⟩)]
      ⟨0, ⟨0, 0, 0⟩, ⟨1, 0, 0⟩, ⟨1, 1, 1⟩, some ⟨some ⟨[⟨"location", 0, [⟨⟨1, 5⟩⟩]⟩]⟩⟩⟩
      ⟨0, ⟨0, 0, 0⟩, ⟨1, 0, 0⟩, ⟨1, 1, 1⟩, some ⟨some ⟨[⟨"location", 0, [⟨⟨1, 5⟩⟩]⟩]⟩⟩⟩
      rfl,
    confirm_mutates_only_matching_keyframe_values.2.2 [(0, ⟨1, 1, 1⟩)]
      ⟨0, ⟨0, 0, 0⟩, ⟨0, 0, 0⟩, ⟨1, 2, 1⟩, some ⟨some ⟨[⟨"location", 0, [⟨⟨1, 5⟩⟩]⟩]⟩⟩⟩
      ⟨0, ⟨0, 0, 0⟩, ⟨0, 0, 0⟩, ⟨1, 2, 1⟩, some ⟨some ⟨[⟨"location", 0, [⟨⟨1, 5⟩⟩]⟩]⟩⟩⟩
      (by rfl)⟩

end AnimOffset
